import Mathlib

/-!
# Microphone monitor (`src/helpers/mic-monitor.cpp`)

A shallow embedding of the WASAPI session scan `checkMicrophoneActive`, of the
change reporter `checkAndReport` and of `main`.

The COM objects the program talks to are modelled as a snapshot: a record of the
answer each call gives during one scan (every call is made at most once per scan,
so a function from the index to the answer is enough).  Each function returns,
next to its C++ result, the list of the calls it makes, in program order.
-/

namespace MicMonitor

/-! ## Platform types -/

/-- A COM status code: a signed 32-bit integer. -/
abbrev HRESULT := Int

/-- The `SUCCEEDED(hr)` test of the Windows headers: `hr >= 0`. -/
def SUCCEEDED (hr : HRESULT) : Bool := decide (0 ≤ hr)

/-- The `FAILED(hr)` test of the Windows headers: `hr < 0`. -/
def FAILED (hr : HRESULT) : Bool := decide (hr < 0)

/-- The `AudioSessionState` enumeration.  A C++ variable of this type that was never
written may hold any integer, so the type is the integers. -/
abbrev AudioSessionState := Int

/-- Enumerator `AudioSessionStateInactive` of the Windows headers. -/
def AudioSessionStateInactive : AudioSessionState := 0

/-- Enumerator `AudioSessionStateActive` of the Windows headers. -/
def AudioSessionStateActive : AudioSessionState := 1

/-- Enumerator `AudioSessionStateExpired` of the Windows headers. -/
def AudioSessionStateExpired : AudioSessionState := 2

/-! ## The snapshot of the audio subsystem -/

/-- One session control.  `GetState` is the status of `GetState(&state)` together with
the content of the local variable `state` after the call (anything when the call
failed: the variable is not initialised by the program). -/
structure IAudioSessionControl where
  GetState : HRESULT × AudioSessionState

/-- One session enumerator.  `GetCount` is the content of `sessionCount` after
`GetCount(&sessionCount)` (a signed `int`); `GetSession j` is the answer to
`GetSession(j, &pSessionControl)`. -/
structure IAudioSessionEnumerator where
  GetCount : Int
  GetSession : Nat → HRESULT × IAudioSessionControl

/-- One session manager: the answer to `GetSessionEnumerator(&pSessionEnum)`. -/
structure IAudioSessionManager2 where
  GetSessionEnumerator : HRESULT × IAudioSessionEnumerator

/-- One capture endpoint: the answer to `Activate(IAudioSessionManager2, ...)`. -/
structure IMMDevice where
  Activate : HRESULT × IAudioSessionManager2

/-- The device collection.  `GetCount` is the content of `count` after
`GetCount(&count)` (a `UINT`); `Item i` is the answer to `Item(i, &pDevice)`. -/
structure IMMDeviceCollection where
  GetCount : Nat
  Item : Nat → HRESULT × IMMDevice

/-- The device enumerator: the answer to
`EnumAudioEndpoints(eCapture, DEVICE_STATE_ACTIVE, &pCollection)`. -/
structure IMMDeviceEnumerator where
  EnumAudioEndpoints : HRESULT × IMMDeviceCollection

/-- What the audio subsystem answers during one scan: the answer to
`CoCreateInstance(MMDeviceEnumerator, ...)`. -/
structure AudioSubsystem where
  CoCreateInstance : HRESULT × IMMDeviceEnumerator

/-! ## Calls made by a scan -/

/-- The interface pointers of `checkMicrophoneActive`, indexed by the loop counters
under which they were obtained. -/
inductive Handle where
  | pEnumerator
  | pCollection
  | pDevice (i : Nat)
  | pSessionManager (i : Nat)
  | pSessionEnum (i : Nat)
  | pSessionControl (i j : Nat)
  deriving DecidableEq, Repr

/-- The COM calls of `checkMicrophoneActive`.  `i` is the device index and `j` the
session index at the time of the call. -/
inductive Call where
  | CoCreateInstance
  | EnumAudioEndpoints
  | CollectionGetCount
  | Item (i : Nat)
  | Activate (i : Nat)
  | GetSessionEnumerator (i : Nat)
  | SessionGetCount (i : Nat)
  | GetSession (i j : Nat)
  | GetState (i j : Nat)
  | Release (h : Handle)
  deriving DecidableEq, Repr

/-! ## `checkMicrophoneActive` (lines 21-82) -/

/-- Body of the session loop (lines 57-67) at index `j` of device `i`: the new value
of `anyActive` and the calls made. -/
def sessionBody (i : Nat) (pSessionEnum : IAudioSessionEnumerator) (j : Nat)
    (anyActive : Bool) : Bool × List Call :=
  let got := pSessionEnum.GetSession j
  if SUCCEEDED got.1 then
    let st := got.2.GetState
    (if SUCCEEDED st.1 && decide (st.2 = AudioSessionStateActive) then true else anyActive,
     [Call.GetSession i j, Call.GetState i j, Call.Release (Handle.pSessionControl i j)])
  else
    (anyActive, [Call.GetSession i j])

/-- The loop `for (int j = 0; j < sessionCount; j++)` (lines 56-70), entered at index
`j` with `n = sessionCount - j` iterations left when that is positive (`n = 0` is
`j >= sessionCount`).  After the body, `if (anyActive) break;`. -/
def sessionLoop (i : Nat) (pSessionEnum : IAudioSessionEnumerator) :
    Nat → Nat → Bool → Bool × List Call
  | 0, _, anyActive => (anyActive, [])
  | n + 1, j, anyActive =>
    let body := sessionBody i pSessionEnum j anyActive
    if body.1 then body
    else
      let rest := sessionLoop i pSessionEnum n (j + 1) body.1
      (rest.1, body.2 ++ rest.2)

/-- Body of the device loop (lines 42-75) at index `i`. -/
def deviceBody (pCollection : IMMDeviceCollection) (i : Nat) (anyActive : Bool) :
    Bool × List Call :=
  let item := pCollection.Item i
  if FAILED item.1 then (anyActive, [Call.Item i])
  else
    let activated := item.2.Activate
    if SUCCEEDED activated.1 then
      let enumerated := activated.2.GetSessionEnumerator
      if SUCCEEDED enumerated.1 then
        let sessionCount := enumerated.2.GetCount
        let sessions := sessionLoop i enumerated.2 sessionCount.toNat 0 anyActive
        (sessions.1,
         [Call.Item i, Call.Activate i, Call.GetSessionEnumerator i, Call.SessionGetCount i]
           ++ sessions.2
           ++ [Call.Release (Handle.pSessionEnum i), Call.Release (Handle.pSessionManager i),
               Call.Release (Handle.pDevice i)])
      else
        (anyActive,
         [Call.Item i, Call.Activate i, Call.GetSessionEnumerator i,
          Call.Release (Handle.pSessionManager i), Call.Release (Handle.pDevice i)])
    else
      (anyActive, [Call.Item i, Call.Activate i, Call.Release (Handle.pDevice i)])

/-- The loop `for (UINT i = 0; i < count && !anyActive; i++)` (lines 41-76), entered
at index `i` with `n = count - i` iterations left (`n = 0` is `i >= count`).  The
counter never wraps: `i < count` and `count` is a `UINT`. -/
def deviceLoop (pCollection : IMMDeviceCollection) : Nat → Nat → Bool → Bool × List Call
  | 0, _, anyActive => (anyActive, [])
  | n + 1, i, anyActive =>
    if anyActive then (anyActive, [])
    else
      let body := deviceBody pCollection i anyActive
      let rest := deviceLoop pCollection n (i + 1) body.1
      (rest.1, body.2 ++ rest.2)

/-- Function `checkMicrophoneActive` (lines 21-82): the returned boolean and the calls
made, in order. -/
def checkMicrophoneActive (sys : AudioSubsystem) : Bool × List Call :=
  let created := sys.CoCreateInstance
  if FAILED created.1 then (false, [Call.CoCreateInstance])
  else
    let enumerated := created.2.EnumAudioEndpoints
    if FAILED enumerated.1 then
      (false, [Call.CoCreateInstance, Call.EnumAudioEndpoints, Call.Release Handle.pEnumerator])
    else
      let count := enumerated.2.GetCount
      let devices := deviceLoop enumerated.2 count 0 false
      (devices.1,
       [Call.CoCreateInstance, Call.EnumAudioEndpoints, Call.CollectionGetCount]
         ++ devices.2
         ++ [Call.Release Handle.pCollection, Call.Release Handle.pEnumerator])

/-! ## `checkAndReport` (lines 84-92) and the globals (lines 18-19) -/

/-- The two file-scope variables of lines 18-19. -/
structure ReporterState where
  lastReportedState : Bool
  isFirstReport : Bool
  deriving DecidableEq, Repr

/-- The initial values of the globals: `lastReportedState = false`,
`isFirstReport = true`. -/
def initialReporterState : ReporterState :=
  { lastReportedState := false, isFirstReport := true }

/-- What the process does that is visible from outside, in program order. -/
inductive Effect where
  | CoInitializeEx
  | setvbuf
  | com (c : Call)
  | printf (text : String)
  | fflush
  | fprintfStderr (text : String)
  | Sleep (ms : Nat)
  | CoUninitialize
  deriving DecidableEq, Repr

/-- The text `printf("{\"micActive\":%s}\n", anyActive ? "true" : "false")` writes. -/
def reportLine (anyActive : Bool) : String :=
  "\x7b\"micActive\":" ++ (if anyActive then "true" else "false") ++ "\x7d\n"

/-- Function `checkAndReport` (lines 84-92): the globals after the call and the
effects of the call (the calls of the scan, then what is written to `stdout`). -/
def checkAndReport (sys : AudioSubsystem) (g : ReporterState) : ReporterState × List Effect :=
  let scan := checkMicrophoneActive sys
  let anyActive := scan.1
  if g.isFirstReport || (anyActive != g.lastReportedState) then
    ({ lastReportedState := anyActive, isFirstReport := false },
     scan.2.map Effect.com ++ [Effect.printf (reportLine anyActive), Effect.fflush])
  else
    (g, scan.2.map Effect.com)

/-- Successive calls of `checkAndReport`, one per snapshot, with the globals carried
from one call to the next. -/
def checkAndReportEach (g : ReporterState) : List AudioSubsystem → ReporterState × List Effect
  | [] => (g, [])
  | sys :: later =>
    let tick := checkAndReport sys g
    let rest := checkAndReportEach tick.1 later
    (rest.1, tick.2 ++ rest.2)

/-! ## Reading a snapshot -/

/-- The device collection a scan of `sys` walks. -/
def AudioSubsystem.collection (sys : AudioSubsystem) : IMMDeviceCollection :=
  sys.CoCreateInstance.2.EnumAudioEndpoints.2

/-- The session enumerator of a device. -/
def IMMDevice.sessionEnum (d : IMMDevice) : IAudioSessionEnumerator :=
  d.Activate.2.GetSessionEnumerator.2

/-- The answer to `GetSession` is a session the scan counts: retrieval succeeds, the
state read succeeds and the state is `AudioSessionStateActive`. -/
def sessionActive (got : HRESULT × IAudioSessionControl) : Bool :=
  SUCCEEDED got.1 && (SUCCEEDED got.2.GetState.1 &&
    decide (got.2.GetState.2 = AudioSessionStateActive))

/-- The answer to `Item` is a device whose sessions can be enumerated: retrieval,
session-manager activation and session-enumerator acquisition all succeed. -/
def deviceReachable (item : HRESULT × IMMDevice) : Bool :=
  SUCCEEDED item.1 && (SUCCEEDED item.2.Activate.1 &&
    SUCCEEDED item.2.Activate.2.GetSessionEnumerator.1)

/-- Logical OR over the sessions of one device, without short-circuit: every index
below the reported session count is looked at. -/
def deviceOr (item : HRESULT × IMMDevice) : Bool :=
  deviceReachable item &&
    (List.range item.2.sessionEnum.GetCount.toNat).any
      (fun j => sessionActive (item.2.sessionEnum.GetSession j))

/-- The Observed State in the words of the specification: the reduction of all
sessions across all devices via logical OR (no short-circuit). -/
def observedState (pCollection : IMMDeviceCollection) : Bool :=
  (List.range pCollection.GetCount).any (fun i => deviceOr (pCollection.Item i))

/-! ## Building snapshots -/

/-- Status code `S_OK`. -/
def S_OK : HRESULT := 0

/-- Status code `E_FAIL` (`0x80004005` as a signed 32-bit integer). -/
def E_FAIL : HRESULT := -2147467259

/-- A session that can be retrieved and whose state reads as `st`. -/
def sessionInState (st : AudioSessionState) : HRESULT × IAudioSessionControl :=
  (S_OK, { GetState := (S_OK, st) })

/-- A session that can be retrieved but whose state read fails, leaving `garbage` in
the variable `state`. -/
def sessionUnreadable (garbage : AudioSessionState) : HRESULT × IAudioSessionControl :=
  (S_OK, { GetState := (E_FAIL, garbage) })

/-- A session enumerator reporting the sessions of `l`, in order; `GetSession` fails
beyond the end of `l`. -/
def enumeratorOf (l : List (HRESULT × IAudioSessionControl)) : IAudioSessionEnumerator :=
  { GetCount := l.length
    GetSession := fun j => l.getD j (E_FAIL, { GetState := (E_FAIL, 0) }) }

/-- A device that can be retrieved and whose sessions are those of `l`. -/
def deviceOf (l : List (HRESULT × IAudioSessionControl)) : HRESULT × IMMDevice :=
  (S_OK, { Activate := (S_OK, { GetSessionEnumerator := (S_OK, enumeratorOf l) }) })

/-- A device collection reporting the devices of `ds`, in order; `Item` fails beyond
the end of `ds`. -/
def collectionOf (ds : List (HRESULT × IMMDevice)) : IMMDeviceCollection :=
  { GetCount := ds.length
    Item := fun i => ds.getD i (E_FAIL, (deviceOf []).2) }

/-- A subsystem whose enumerator and endpoint enumeration succeed, with devices `ds`. -/
def systemOf (ds : List (HRESULT × IMMDevice)) : AudioSubsystem :=
  { CoCreateInstance := (S_OK, { EnumAudioEndpoints := (S_OK, collectionOf ds) }) }

/-- A subsystem with one device and one session, in state `AudioSessionStateActive`
when `b` is true and `AudioSessionStateInactive` otherwise: its scan returns `b`. -/
def systemScanning (b : Bool) : AudioSubsystem :=
  systemOf [deviceOf [sessionInState
    (if b then AudioSessionStateActive else AudioSessionStateInactive)]]

/-! ## Reading the effects of a tick -/

/-- The effect is on the output stream `stdout` (a `printf` or the `fflush`). -/
def isStdout : Effect → Bool
  | Effect.printf _ => true
  | Effect.fflush => true
  | _ => false

/-- What a run of effects does to `stdout`, in order. -/
def stdoutEffects (tr : List Effect) : List Effect := tr.filter isStdout

/-- The two effects of one report of the value `v`: the line, then the flush. -/
def reportOf (v : Bool) : List Effect := [Effect.printf (reportLine v), Effect.fflush]

/-- The effects of reporting the values of `vs` one after the other. -/
def reportsOf : List Bool → List Effect
  | [] => []
  | v :: vs => reportOf v ++ reportsOf vs

/-- The result of the scan of each tick, in order. -/
def scanResults (ticks : List AudioSubsystem) : List Bool :=
  ticks.map (fun sys => (checkMicrophoneActive sys).1)

/-! ## Snapshots with failures, and insertion into a snapshot -/

/-- A subsystem whose `CoCreateInstance` fails; behind it, the devices of `sys`. -/
def withoutEnumerator (sys : AudioSubsystem) : AudioSubsystem :=
  { CoCreateInstance := (E_FAIL, sys.CoCreateInstance.2) }

/-- A subsystem whose `EnumAudioEndpoints` fails; behind it, the devices of `sys`. -/
def withoutEndpoints (sys : AudioSubsystem) : AudioSubsystem :=
  { CoCreateInstance :=
      (S_OK, { EnumAudioEndpoints := (E_FAIL, sys.CoCreateInstance.2.EnumAudioEndpoints.2) }) }

/-- The indexed family `f` with `x` inserted at position `p`: the entries from `p` on
move up by one. -/
def insertAt {α : Type} (f : Nat → α) (p : Nat) (x : α) : Nat → α :=
  fun k => if k < p then f k else if k = p then x else f (k - 1)

/-- The subsystem `sys` with its device collection replaced by `c`. -/
def AudioSubsystem.withCollection (sys : AudioSubsystem) (c : IMMDeviceCollection) :
    AudioSubsystem :=
  { CoCreateInstance :=
      (sys.CoCreateInstance.1,
       { EnumAudioEndpoints := (sys.CoCreateInstance.2.EnumAudioEndpoints.1, c) }) }

/-- The answer `item` of `Item` with the session enumerator of the device replaced by
`e`; the three status codes are kept. -/
def withSessionEnum (item : HRESULT × IMMDevice) (e : IAudioSessionEnumerator) :
    HRESULT × IMMDevice :=
  (item.1,
   { Activate :=
       (item.2.Activate.1,
        { GetSessionEnumerator := (item.2.Activate.2.GetSessionEnumerator.1, e) }) })

/-- The subsystem `sys` with the device `item` inserted at position `p` of the
collection: the count grows by one. -/
def insertDevice (sys : AudioSubsystem) (p : Nat) (item : HRESULT × IMMDevice) :
    AudioSubsystem :=
  sys.withCollection
    { GetCount := sys.collection.GetCount + 1
      Item := insertAt sys.collection.Item p item }

/-- The subsystem `sys` with the session `got` inserted at position `p` of the
sessions of device `i`: the session count of that device grows by one. -/
def insertSession (sys : AudioSubsystem) (i p : Nat) (got : HRESULT × IAudioSessionControl) :
    AudioSubsystem :=
  sys.withCollection
    { GetCount := sys.collection.GetCount
      Item := fun k =>
        if k = i then
          withSessionEnum (sys.collection.Item i)
            { GetCount := (sys.collection.Item i).2.sessionEnum.GetCount + 1
              GetSession := insertAt (sys.collection.Item i).2.sessionEnum.GetSession p got }
        else sys.collection.Item k }

/-- The device index a call is made under, when it has one. -/
def Call.deviceIndex : Call → Option Nat
  | Call.Item i => some i
  | Call.Activate i => some i
  | Call.GetSessionEnumerator i => some i
  | Call.SessionGetCount i => some i
  | Call.GetSession i _ => some i
  | Call.GetState i _ => some i
  | Call.Release (Handle.pDevice i) => some i
  | Call.Release (Handle.pSessionManager i) => some i
  | Call.Release (Handle.pSessionEnum i) => some i
  | Call.Release (Handle.pSessionControl i _) => some i
  | _ => none

/-- The session index a call is made under, when it has one. -/
def Call.sessionIndex : Call → Option Nat
  | Call.GetSession _ j => some j
  | Call.GetState _ j => some j
  | Call.Release (Handle.pSessionControl _ j) => some j
  | _ => none

/-- Three devices: the first with one inactive session, the second and the third
with one active session each. -/
def threeDevices : AudioSubsystem :=
  systemOf [deviceOf [sessionInState AudioSessionStateInactive],
            deviceOf [sessionInState AudioSessionStateActive],
            deviceOf [sessionInState AudioSessionStateActive]]

/-- A device that can be retrieved but whose session manager cannot be activated;
behind the failure, one active session. -/
def deviceWithoutManager : HRESULT × IMMDevice :=
  (S_OK, { Activate := (E_FAIL, (deviceOf [sessionInState AudioSessionStateActive]).2.Activate.2) })

/-! ## `main` (lines 94-112) -/

/-- The text `fprintf(stderr, "COM initialization failed: 0x%lx\n", hr)` writes: `%lx`
prints the 32-bit `long` as an unsigned number in lower-case hexadecimal. -/
def diagnosticLine (hr : HRESULT) : String :=
  "COM initialization failed: 0x" ++ String.mk (Nat.toDigits 16 (hr % 2 ^ 32).toNat) ++ "\n"

/-- The loop `while (true) { Sleep(2000); checkAndReport(); }` (lines 105-108), watched
for as many iterations as there are snapshots: each iteration scans the next snapshot.
The exit code is `none` while the loop is running; the statements after the loop
(`CoUninitialize(); return 0;`) would run if the condition `true` were ever false. -/
def whileLoop (g : ReporterState) :
    List AudioSubsystem → Option Int × ReporterState × List Effect
  | [] => (none, g, [])
  | sys :: later =>
    if true then
      let tick := checkAndReport sys g
      let rest := whileLoop tick.1 later
      (rest.1, rest.2.1, Effect.Sleep 2000 :: tick.2 ++ rest.2.2)
    else
      (some 0, g, [Effect.CoUninitialize])

/-- Function `main` (lines 94-112), where `hr` is the answer of `CoInitializeEx`, `first`
the snapshot the first scan sees and `later` the snapshots the scans of the loop see:
the exit code (`none` while the loop is running), the globals and the effects. -/
def main (hr : HRESULT) (first : AudioSubsystem) (later : List AudioSubsystem) :
    Option Int × ReporterState × List Effect :=
  if FAILED hr then
    (some 1, initialReporterState,
     [Effect.CoInitializeEx, Effect.fprintfStderr (diagnosticLine hr)])
  else
    let tick := checkAndReport first initialReporterState
    let loop := whileLoop tick.1 later
    (loop.1, loop.2.1, [Effect.CoInitializeEx, Effect.setvbuf] ++ tick.2 ++ loop.2.2)

/-- The effects of the loop after the first tick, in the words of the specification:
for each further tick, one sleep of 2000 milliseconds and then the tick. -/
def sleepThenTick (g : ReporterState) : List AudioSubsystem → List Effect
  | [] => []
  | sys :: later =>
    Effect.Sleep 2000 :: (checkAndReport sys g).2
      ++ sleepThenTick (checkAndReport sys g).1 later

/-- The effect is a scan call or an effect on `stdout`. -/
def isScanOrStdout : Effect → Bool
  | Effect.com _ => true
  | Effect.printf _ => true
  | Effect.fflush => true
  | _ => false

/-! ## Permuting a snapshot -/

/-- The subsystem `sys` with the devices of its collection permuted by `σ`, a
permutation of the indices below the device count: index `i` now answers what index
`σ i` answered. -/
def permuteDevices (sys : AudioSubsystem) (σ : Equiv.Perm (Fin sys.collection.GetCount)) :
    AudioSubsystem :=
  sys.withCollection
    { GetCount := sys.collection.GetCount
      Item := fun i =>
        if h : i < sys.collection.GetCount then sys.collection.Item (σ ⟨i, h⟩)
        else sys.collection.Item i }

/-- The subsystem `sys` with the sessions of device `i` permuted by `σ`, a permutation
of the indices below the session count of that device. -/
def permuteSessions (sys : AudioSubsystem) (i : Nat)
    (σ : Equiv.Perm (Fin (sys.collection.Item i).2.sessionEnum.GetCount.toNat)) :
    AudioSubsystem :=
  sys.withCollection
    { GetCount := sys.collection.GetCount
      Item := fun k =>
        if k = i then
          withSessionEnum (sys.collection.Item i)
            { GetCount := (sys.collection.Item i).2.sessionEnum.GetCount
              GetSession := fun j =>
                if h : j < (sys.collection.Item i).2.sessionEnum.GetCount.toNat then
                  (sys.collection.Item i).2.sessionEnum.GetSession (σ ⟨j, h⟩)
                else (sys.collection.Item i).2.sessionEnum.GetSession j }
        else sys.collection.Item k }

/-- Two devices: the first with one active session, the second with one inactive
session. -/
def activeThenQuiet : AudioSubsystem :=
  systemOf [deviceOf [sessionInState AudioSessionStateActive],
            deviceOf [sessionInState AudioSessionStateInactive]]

/-! ## Counting retrievals -/

/-- The call is a device retrieval `Item(i, ...)`. -/
def Call.isItem : Call → Bool
  | Call.Item _ => true
  | _ => false

/-- The call is a session retrieval `GetSession(j, ...)` on device `i`. -/
def Call.isGetSessionOf (i : Nat) : Call → Bool
  | Call.GetSession i' _ => decide (i' = i)
  | _ => false

/-- Two devices: the first reports a session count of -1 (and would answer an active
session at index 0), the second has one active session. -/
def negativeCountThenActive : AudioSubsystem :=
  systemOf
    [(S_OK, { Activate := (S_OK, { GetSessionEnumerator :=
        (S_OK, { GetCount := -1
                 GetSession := fun _ => sessionInState AudioSessionStateActive }) }) }),
     deviceOf [sessionInState AudioSessionStateActive]]

/-! ## Handles: acquisition, use and release -/

/-- The call that acquires the handle. -/
def Handle.acquiredBy : Handle → Call
  | Handle.pEnumerator => Call.CoCreateInstance
  | Handle.pCollection => Call.EnumAudioEndpoints
  | Handle.pDevice i => Call.Item i
  | Handle.pSessionManager i => Call.Activate i
  | Handle.pSessionEnum i => Call.GetSessionEnumerator i
  | Handle.pSessionControl i j => Call.GetSession i j

/-- The handle a call hands out when it succeeds, if it is an acquisition. -/
def Call.acquires : Call → Option Handle
  | Call.CoCreateInstance => some Handle.pEnumerator
  | Call.EnumAudioEndpoints => some Handle.pCollection
  | Call.Item i => some (Handle.pDevice i)
  | Call.Activate i => some (Handle.pSessionManager i)
  | Call.GetSessionEnumerator i => some (Handle.pSessionEnum i)
  | Call.GetSession i j => some (Handle.pSessionControl i j)
  | _ => none

/-- The handle a call is made through (the object of the method call), if any;
a release is made through the handle it releases. -/
def Call.receiver : Call → Option Handle
  | Call.CoCreateInstance => none
  | Call.EnumAudioEndpoints => some Handle.pEnumerator
  | Call.CollectionGetCount => some Handle.pCollection
  | Call.Item _ => some Handle.pCollection
  | Call.Activate i => some (Handle.pDevice i)
  | Call.GetSessionEnumerator i => some (Handle.pSessionManager i)
  | Call.SessionGetCount i => some (Handle.pSessionEnum i)
  | Call.GetSession i _ => some (Handle.pSessionEnum i)
  | Call.GetState i j => some (Handle.pSessionControl i j)
  | Call.Release h => some h

/-- The status the snapshot gives to the acquisition of the handle is a success. -/
def acquisitionSucceeded (sys : AudioSubsystem) : Handle → Bool
  | Handle.pEnumerator => SUCCEEDED sys.CoCreateInstance.1
  | Handle.pCollection => SUCCEEDED sys.CoCreateInstance.2.EnumAudioEndpoints.1
  | Handle.pDevice i => SUCCEEDED (sys.collection.Item i).1
  | Handle.pSessionManager i => SUCCEEDED (sys.collection.Item i).2.Activate.1
  | Handle.pSessionEnum i =>
    SUCCEEDED (sys.collection.Item i).2.Activate.2.GetSessionEnumerator.1
  | Handle.pSessionControl i j =>
    SUCCEEDED ((sys.collection.Item i).2.sessionEnum.GetSession j).1

/-- The handles held after the call `c`, made while the handles of `live` are held;
`none` when the call is made through a handle that is not held, or acquires a handle
that is already held.  A release gives the handle back; a successful acquisition adds
the handle; a failed acquisition adds nothing. -/
def handleStep (sys : AudioSubsystem) (live : List Handle) (c : Call) :
    Option (List Handle) :=
  let after : Option (List Handle) :=
    match c with
    | Call.Release h => some (live.erase h)
    | _ =>
      match c.acquires with
      | some h =>
        if acquisitionSucceeded sys h then
          (if h ∈ live then none else some (h :: live))
        else some live
      | none => some live
  match c.receiver with
  | some h => if h ∈ live then after else none
  | none => after

/-- The handles held after the calls of `tr`, made in order from the handles of `live`;
`none` when one of the calls is refused by `handleStep`. -/
def handleRun (sys : AudioSubsystem) : List Handle → List Call → Option (List Handle)
  | live, [] => some live
  | live, c :: tr =>
    match handleStep sys live c with
    | none => none
    | some live₁ => handleRun sys live₁ tr

/-! ## The scan computes the logical OR -/

theorem SUCCEEDED_eq_not_FAILED (hr : HRESULT) : SUCCEEDED hr = !FAILED hr := by
  unfold SUCCEEDED FAILED
  by_cases h : (0 : Int) ≤ hr
  · have h2 : ¬ hr < (0 : Int) := not_lt.mpr h
    simp [h, h2]
  · have h2 : hr < (0 : Int) := not_le.mp h
    simp [h, h2]

theorem FAILED_eq_not_SUCCEEDED (hr : HRESULT) : FAILED hr = !SUCCEEDED hr := by
  rw [SUCCEEDED_eq_not_FAILED]; simp

theorem any_range_succ_shift (f : Nat → Bool) (n j : Nat) :
    (List.range (n + 1)).any (fun k => f (j + k)) =
      (f j || (List.range n).any (fun k => f (j + 1 + k))) := by
  rw [List.range_succ_eq_map, List.any_cons, List.any_map]
  have h : ((fun k => f (j + k)) ∘ Nat.succ) = (fun k => f (j + 1 + k)) := by
    funext k
    show f (j + (k + 1)) = f (j + 1 + k)
    congr 1
    omega
  rw [h]
  simp

theorem sessionBody_fst (i : Nat) (e : IAudioSessionEnumerator) (j : Nat) (a : Bool) :
    (sessionBody i e j a).1 = (a || sessionActive (e.GetSession j)) := by
  unfold sessionBody sessionActive
  cases h1 : SUCCEEDED (e.GetSession j).1 <;>
    cases h2 : SUCCEEDED (e.GetSession j).2.GetState.1 <;>
    cases a <;> simp [h1, h2]

theorem sessionLoop_fst (i : Nat) (e : IAudioSessionEnumerator) (n : Nat) :
    ∀ (j : Nat) (a : Bool), (sessionLoop i e n j a).1 =
      (a || (List.range n).any (fun k => sessionActive (e.GetSession (j + k)))) := by
  induction n with
  | zero => intro j a; simp [sessionLoop]
  | succ n ih =>
    intro j a
    rw [any_range_succ_shift (fun k => sessionActive (e.GetSession k))]
    simp only [sessionLoop]
    cases hb : (sessionBody i e j a).1
    · have hb2 := hb
      rw [sessionBody_fst] at hb2
      simp only [Bool.or_eq_false_iff] at hb2
      simp [ih, hb2.1, hb2.2]
    · have hb2 := hb
      rw [sessionBody_fst] at hb2
      simp only [if_true, hb]
      rw [← Bool.or_assoc, hb2]
      simp

theorem deviceBody_fst (c : IMMDeviceCollection) (i : Nat) (a : Bool) :
    (deviceBody c i a).1 = (a || deviceOr (c.Item i)) := by
  unfold deviceBody deviceOr deviceReachable IMMDevice.sessionEnum
  simp only [FAILED_eq_not_SUCCEEDED]
  cases h1 : SUCCEEDED (c.Item i).1 <;>
    cases h2 : SUCCEEDED (c.Item i).2.Activate.1 <;>
    cases h3 : SUCCEEDED (c.Item i).2.Activate.2.GetSessionEnumerator.1 <;>
    simp [sessionLoop_fst, h1, h2, h3]

theorem deviceLoop_fst (c : IMMDeviceCollection) (n : Nat) :
    ∀ (i : Nat) (a : Bool), (deviceLoop c n i a).1 =
      (a || (List.range n).any (fun k => deviceOr (c.Item (i + k)))) := by
  induction n with
  | zero => intro i a; simp [deviceLoop]
  | succ n ih =>
    intro i a
    rw [any_range_succ_shift (fun k => deviceOr (c.Item k))]
    cases a
    · simp [deviceLoop, ih, deviceBody_fst]
    · simp [deviceLoop]

theorem checkMicrophoneActive_fst (sys : AudioSubsystem) :
    (checkMicrophoneActive sys).1 =
      (SUCCEEDED sys.CoCreateInstance.1 &&
        (SUCCEEDED sys.CoCreateInstance.2.EnumAudioEndpoints.1 &&
          observedState sys.collection)) := by
  unfold checkMicrophoneActive observedState AudioSubsystem.collection
  simp only [FAILED_eq_not_SUCCEEDED]
  cases h1 : SUCCEEDED sys.CoCreateInstance.1 <;>
    cases h2 : SUCCEEDED sys.CoCreateInstance.2.EnumAudioEndpoints.1 <;>
    simp [deviceLoop_fst, h1, h2]

theorem observedState_eq_true_iff (c : IMMDeviceCollection) :
    observedState c = true ↔
      ∃ i j : Nat, i < c.GetCount ∧ (j : Int) < (c.Item i).2.sessionEnum.GetCount ∧
        deviceReachable (c.Item i) = true ∧
        sessionActive ((c.Item i).2.sessionEnum.GetSession j) = true := by
  unfold observedState deviceOr
  simp only [List.any_eq_true, List.mem_range, Bool.and_eq_true]
  constructor
  · rintro ⟨i, hi, hr, j, hj, hs⟩
    exact ⟨i, j, hi, Int.lt_toNat.mp hj, hr, hs⟩
  · rintro ⟨i, j, hi, hj, hr, hs⟩
    exact ⟨i, hi, hr, j, Int.lt_toNat.mpr hj, hs⟩

/-- C1: when enumerator acquisition and endpoint enumeration succeed,
`checkMicrophoneActive` returns true exactly when some device index `i` below the
device count and some session index `j` below that device's session count are such
that device retrieval, session-manager activation, session-enumerator acquisition,
session retrieval and the state read all succeed and the state is
`AudioSessionStateActive`; and the short-circuiting loops return the same boolean as
the logical OR over all sessions of all devices. -/
theorem checkMicrophoneActive_iff_active_session (sys : AudioSubsystem)
    (hEnumerator : SUCCEEDED sys.CoCreateInstance.1 = true)
    (hEndpoints : SUCCEEDED sys.CoCreateInstance.2.EnumAudioEndpoints.1 = true) :
    ((checkMicrophoneActive sys).1 = true ↔
      ∃ i j : Nat, i < sys.collection.GetCount ∧
        (j : Int) < (sys.collection.Item i).2.sessionEnum.GetCount ∧
        SUCCEEDED (sys.collection.Item i).1 = true ∧
        SUCCEEDED (sys.collection.Item i).2.Activate.1 = true ∧
        SUCCEEDED (sys.collection.Item i).2.Activate.2.GetSessionEnumerator.1 = true ∧
        SUCCEEDED ((sys.collection.Item i).2.sessionEnum.GetSession j).1 = true ∧
        SUCCEEDED ((sys.collection.Item i).2.sessionEnum.GetSession j).2.GetState.1 = true ∧
        ((sys.collection.Item i).2.sessionEnum.GetSession j).2.GetState.2
          = AudioSessionStateActive) ∧
    (checkMicrophoneActive sys).1 = observedState sys.collection := by
  have hfst : (checkMicrophoneActive sys).1 = observedState sys.collection := by
    rw [checkMicrophoneActive_fst, hEnumerator, hEndpoints]; simp
  refine ⟨?_, hfst⟩
  rw [hfst, observedState_eq_true_iff]
  simp only [deviceReachable, sessionActive, Bool.and_eq_true, decide_eq_true_eq]
  constructor
  · rintro ⟨i, j, hi, hj, ⟨h1, h2, h3⟩, h4, h5, h6⟩
    exact ⟨i, j, hi, hj, h1, h2, h3, h4, h5, h6⟩
  · rintro ⟨i, j, hi, hj, h1, h2, h3, h4, h5, h6⟩
    exact ⟨i, j, hi, hj, ⟨h1, h2, h3⟩, h4, h5, h6⟩

/-- Witness for C1: a subsystem with one device holding one active session. -/
theorem checkMicrophoneActive_iff_active_session_witness :
    SUCCEEDED (systemScanning true).CoCreateInstance.1 = true ∧
    SUCCEEDED (systemScanning true).CoCreateInstance.2.EnumAudioEndpoints.1 = true ∧
    (checkMicrophoneActive (systemScanning true)).1 = true ∧
    (checkMicrophoneActive (systemScanning true)).1
      = observedState (systemScanning true).collection :=
  ⟨by decide, by decide, by decide,
   (checkMicrophoneActive_iff_active_session (systemScanning true)
      (by decide) (by decide)).2⟩

/-! ## The change reporter -/

theorem stdoutEffects_append (l₁ l₂ : List Effect) :
    stdoutEffects (l₁ ++ l₂) = stdoutEffects l₁ ++ stdoutEffects l₂ := by
  simp [stdoutEffects]

theorem stdoutEffects_com (l : List Call) : stdoutEffects (l.map Effect.com) = [] := by
  induction l with
  | nil => rfl
  | cons c l ih =>
    simp only [stdoutEffects, List.map_cons] at ih ⊢
    rw [List.filter_cons]
    simp [isStdout]

theorem stdoutEffects_reportOf (v : Bool) : stdoutEffects (reportOf v) = reportOf v := by
  simp [stdoutEffects, reportOf, isStdout]

theorem reportLine_injective (a b : Bool) (h : reportLine a = reportLine b) : a = b := by
  cases a <;> cases b <;> first | rfl | (exact absurd h (by decide))

theorem checkAndReport_emit (sys : AudioSubsystem) (g : ReporterState)
    (h : g.isFirstReport = true ∨ (checkMicrophoneActive sys).1 ≠ g.lastReportedState) :
    checkAndReport sys g =
      ({ lastReportedState := (checkMicrophoneActive sys).1, isFirstReport := false },
       (checkMicrophoneActive sys).2.map Effect.com
         ++ reportOf (checkMicrophoneActive sys).1) := by
  unfold checkAndReport reportOf
  have hc : (g.isFirstReport || ((checkMicrophoneActive sys).1 != g.lastReportedState)) = true := by
    rcases h with h | h
    · simp [h]
    · simp [h]
  simp only [hc, if_true]

theorem checkAndReport_silent (sys : AudioSubsystem) (g : ReporterState)
    (h : ¬ (g.isFirstReport = true ∨ (checkMicrophoneActive sys).1 ≠ g.lastReportedState)) :
    checkAndReport sys g = (g, (checkMicrophoneActive sys).2.map Effect.com) := by
  unfold checkAndReport
  have hc : (g.isFirstReport || ((checkMicrophoneActive sys).1 != g.lastReportedState)) = false := by
    rw [not_or] at h
    simp only [ne_eq, not_not] at h
    simp [h.1, h.2]
  simp [hc]

theorem checkAndReport_stdout (sys : AudioSubsystem) (g : ReporterState) :
    stdoutEffects (checkAndReport sys g).2 =
      if g.isFirstReport = true ∨ (checkMicrophoneActive sys).1 ≠ g.lastReportedState
      then reportOf (checkMicrophoneActive sys).1 else [] := by
  split
  · next h =>
    rw [checkAndReport_emit sys g h, stdoutEffects_append, stdoutEffects_com,
      stdoutEffects_reportOf]
    rfl
  · next h =>
    rw [checkAndReport_silent sys g h, stdoutEffects_com]

theorem checkMicrophoneActive_systemScanning (b : Bool) :
    (checkMicrophoneActive (systemScanning b)).1 = b := by
  cases b <;> decide

theorem printf_mem_iff_stdout (tr : List Effect) (text : String) :
    Effect.printf text ∈ tr ↔ Effect.printf text ∈ stdoutEffects tr := by
  simp [stdoutEffects, isStdout]

/-- C2: one call of `checkAndReport` writes a report line exactly when `isFirstReport`
is true or the scan result differs from `lastReportedState`; what it then does to the
output is the one line of the scanned value and the flush, and otherwise it does
nothing at all to the output.  Both scan results occur. -/
theorem checkAndReport_writes_iff (sys : AudioSubsystem) (g : ReporterState) :
    ((∃ text, Effect.printf text ∈ (checkAndReport sys g).2) ↔
      (g.isFirstReport = true ∨ (checkMicrophoneActive sys).1 ≠ g.lastReportedState)) ∧
    stdoutEffects (checkAndReport sys g).2 =
      (if g.isFirstReport = true ∨ (checkMicrophoneActive sys).1 ≠ g.lastReportedState
       then [Effect.printf (reportLine (checkMicrophoneActive sys).1), Effect.fflush]
       else []) ∧
    (∀ active : Bool, ∃ sys' : AudioSubsystem, (checkMicrophoneActive sys').1 = active) := by
  refine ⟨?_, checkAndReport_stdout sys g, fun b => ⟨_, checkMicrophoneActive_systemScanning b⟩⟩
  have key : ∀ text, Effect.printf text ∈ (checkAndReport sys g).2 ↔
      Effect.printf text ∈
        (if g.isFirstReport = true ∨ (checkMicrophoneActive sys).1 ≠ g.lastReportedState
         then reportOf (checkMicrophoneActive sys).1 else []) := fun text => by
    rw [printf_mem_iff_stdout, checkAndReport_stdout]
  simp only [key]
  split
  · next h => simp [h, reportOf]
  · next h => simp [h]

theorem destutter'_head (a : Bool) (l : List Bool) :
    List.destutter' (· ≠ ·) a l = a :: (List.destutter' (· ≠ ·) a l).tail := by
  induction l with
  | nil => simp
  | cons b l ih =>
    rw [List.destutter'_cons]
    split
    · rfl
    · exact ih

theorem checkAndReportEach_stdout_later (ticks : List AudioSubsystem) :
    ∀ g : ReporterState, g.isFirstReport = false →
      stdoutEffects (checkAndReportEach g ticks).2 =
        reportsOf (List.destutter' (· ≠ ·) g.lastReportedState (scanResults ticks)).tail := by
  induction ticks with
  | nil => intro g _; simp [checkAndReportEach, scanResults, stdoutEffects, reportsOf]
  | cons sys later ih =>
    intro g hg
    simp only [checkAndReportEach, scanResults, List.map_cons, stdoutEffects_append]
    rw [List.destutter'_cons]
    by_cases h : g.lastReportedState = (checkMicrophoneActive sys).1
    · have hs : ¬ (g.isFirstReport = true ∨ (checkMicrophoneActive sys).1 ≠ g.lastReportedState) := by
        simp [hg, h]
      rw [checkAndReport_silent sys g hs, stdoutEffects_com]
      simp only [h, ne_eq, not_true_eq_false, if_false, List.nil_append]
      have := ih g hg
      rw [h] at this
      exact this
    · have hs : g.isFirstReport = true ∨ (checkMicrophoneActive sys).1 ≠ g.lastReportedState :=
        Or.inr (fun e => h e.symm)
      rw [checkAndReport_emit sys g hs, stdoutEffects_append, stdoutEffects_com,
        stdoutEffects_reportOf]
      simp only [ne_eq, h, not_false_eq_true, if_true, List.tail_cons, List.nil_append]
      have := ih { lastReportedState := (checkMicrophoneActive sys).1, isFirstReport := false } rfl
      rw [this]
      conv_rhs => rw [destutter'_head]
      rfl

theorem checkAndReportEach_stdout (ticks : List AudioSubsystem) :
    stdoutEffects (checkAndReportEach initialReporterState ticks).2 =
      reportsOf (List.destutter (· ≠ ·) (scanResults ticks)) := by
  cases ticks with
  | nil => rfl
  | cons sys later =>
    have hs : initialReporterState.isFirstReport = true ∨
        (checkMicrophoneActive sys).1 ≠ initialReporterState.lastReportedState := Or.inl rfl
    simp only [checkAndReportEach, scanResults, List.map_cons, stdoutEffects_append,
      List.destutter_cons']
    rw [checkAndReport_emit sys _ hs, stdoutEffects_append, stdoutEffects_com,
      stdoutEffects_reportOf]
    have := checkAndReportEach_stdout_later later
      { lastReportedState := (checkMicrophoneActive sys).1, isFirstReport := false } rfl
    rw [this]
    conv_rhs => rw [destutter'_head]
    rfl

/-- C3: from the initial Reporter State, what successive `checkAndReport` calls write
is the report of each value of the sequence of scan results with every run of
consecutive equal values collapsed to one element (`List.destutter` for `≠`); the ticks
false, false, true write the report of false then of true, and the ticks true, true,
true, false write the report of true then of false. -/
theorem checkAndReportEach_collapses_runs (ticks : List AudioSubsystem) :
    stdoutEffects (checkAndReportEach initialReporterState ticks).2 =
      reportsOf (List.destutter (· ≠ ·) (scanResults ticks)) ∧
    (scanResults ticks = [false, false, true] →
      stdoutEffects (checkAndReportEach initialReporterState ticks).2 =
        [Effect.printf (reportLine false), Effect.fflush,
         Effect.printf (reportLine true), Effect.fflush]) ∧
    (scanResults ticks = [true, true, true, false] →
      stdoutEffects (checkAndReportEach initialReporterState ticks).2 =
        [Effect.printf (reportLine true), Effect.fflush,
         Effect.printf (reportLine false), Effect.fflush]) := by
  refine ⟨checkAndReportEach_stdout ticks, fun h => ?_, fun h => ?_⟩
  · rw [checkAndReportEach_stdout, h]; decide
  · rw [checkAndReportEach_stdout, h]; decide

/-- Witness for C3: the two scenarios, on concrete snapshots. -/
theorem checkAndReportEach_collapses_runs_witness :
    (scanResults [systemScanning false, systemScanning false, systemScanning true]
        = [false, false, true] ∧
      stdoutEffects (checkAndReportEach initialReporterState
          [systemScanning false, systemScanning false, systemScanning true]).2 =
        [Effect.printf (reportLine false), Effect.fflush,
         Effect.printf (reportLine true), Effect.fflush]) ∧
    (scanResults [systemScanning true, systemScanning true, systemScanning true,
          systemScanning false] = [true, true, true, false] ∧
      stdoutEffects (checkAndReportEach initialReporterState
          [systemScanning true, systemScanning true, systemScanning true,
           systemScanning false]).2 =
        [Effect.printf (reportLine true), Effect.fflush,
         Effect.printf (reportLine false), Effect.fflush]) :=
  ⟨⟨by decide, (checkAndReportEach_collapses_runs _).2.1 (by decide)⟩,
   ⟨by decide, (checkAndReportEach_collapses_runs _).2.2 (by decide)⟩⟩

/-- C4: from the initial Reporter State the first call of `checkAndReport` always
writes a report, the one of the scanned value, and this for both scan results. -/
theorem checkAndReport_first_call_emits (sys : AudioSubsystem) :
    stdoutEffects (checkAndReport sys initialReporterState).2 =
      [Effect.printf (reportLine (checkMicrophoneActive sys).1), Effect.fflush] ∧
    Effect.printf (reportLine (checkMicrophoneActive sys).1)
      ∈ (checkAndReport sys initialReporterState).2 ∧
    (∀ active : Bool, ∃ sys' : AudioSubsystem, (checkMicrophoneActive sys').1 = active ∧
      stdoutEffects (checkAndReport sys' initialReporterState).2 =
        [Effect.printf (reportLine active), Effect.fflush]) := by
  have h : ∀ s : AudioSubsystem, stdoutEffects (checkAndReport s initialReporterState).2 =
      [Effect.printf (reportLine (checkMicrophoneActive s).1), Effect.fflush] := by
    intro s
    have hs : initialReporterState.isFirstReport = true ∨
        (checkMicrophoneActive s).1 ≠ initialReporterState.lastReportedState := Or.inl rfl
    rw [checkAndReport_stdout, if_pos hs]
    rfl
  refine ⟨h sys, ?_, fun b => ⟨systemScanning b, checkMicrophoneActive_systemScanning b, ?_⟩⟩
  · rw [printf_mem_iff_stdout, h]
    simp
  · rw [h, checkMicrophoneActive_systemScanning]

/-- C5: when the scans of a first tick and of any number of further ticks all yield
the same boolean `v`, the whole sequence, run from the initial Reporter State, writes
exactly one report, the one of `v`; the first tick writes it and the further ticks
write nothing, however many they are. -/
theorem checkAndReportEach_constant_scans (v : Bool) (first : AudioSubsystem)
    (later : List AudioSubsystem)
    (hFirst : (checkMicrophoneActive first).1 = v)
    (hLater : ∀ sys ∈ later, (checkMicrophoneActive sys).1 = v) :
    stdoutEffects (checkAndReportEach initialReporterState (first :: later)).2 =
      [Effect.printf (reportLine v), Effect.fflush] ∧
    stdoutEffects (checkAndReport first initialReporterState).2 =
      [Effect.printf (reportLine v), Effect.fflush] ∧
    stdoutEffects
      (checkAndReportEach (checkAndReport first initialReporterState).1 later).2 = [] := by
  have hemit := checkAndReport_emit first initialReporterState (Or.inl rfl)
  have hlater : ∀ (l : List AudioSubsystem), (∀ sys ∈ l, (checkMicrophoneActive sys).1 = v) →
      stdoutEffects (checkAndReportEach
        { lastReportedState := v, isFirstReport := false } l).2 = [] := by
    intro l
    induction l with
    | nil => intro _; rfl
    | cons sys l ih =>
      intro hl
      have hsys := hl sys (List.mem_cons_self sys l)
      have hs : ¬ (({ lastReportedState := v, isFirstReport := false } : ReporterState).isFirstReport
          = true ∨ (checkMicrophoneActive sys).1 ≠
            ({ lastReportedState := v, isFirstReport := false } : ReporterState).lastReportedState) := by
        simp [hsys]
      simp only [checkAndReportEach, stdoutEffects_append]
      rw [checkAndReport_silent sys _ hs, stdoutEffects_com]
      simp only [List.nil_append]
      exact ih (fun s hmem => hl s (List.mem_cons_of_mem sys hmem))
  have h2 : stdoutEffects (checkAndReport first initialReporterState).2 =
      [Effect.printf (reportLine v), Effect.fflush] := by
    rw [hemit, stdoutEffects_append, stdoutEffects_com, stdoutEffects_reportOf, hFirst]
    rfl
  have h3 : stdoutEffects
      (checkAndReportEach (checkAndReport first initialReporterState).1 later).2 = [] := by
    rw [hemit, hFirst]
    exact hlater later hLater
  refine ⟨?_, h2, h3⟩
  simp only [checkAndReportEach, stdoutEffects_append]
  rw [h2, h3]
  rfl

/-- Witness for C5: four ticks that all scan true. -/
theorem checkAndReportEach_constant_scans_witness :
    stdoutEffects (checkAndReportEach initialReporterState
      (systemScanning true ::
        [systemScanning true, systemScanning true, systemScanning true])).2 =
      [Effect.printf (reportLine true), Effect.fflush] :=
  (checkAndReportEach_constant_scans true (systemScanning true)
    [systemScanning true, systemScanning true, systemScanning true]
    (by decide) (by decide)).1

/-- C6: two consecutive ticks from the initial Reporter State whose scans yield `a`
and then `b`, with `a ≠ b`, write exactly two reports: the one of `a`, then the one
of `b`. -/
theorem checkAndReportEach_transition (a b : Bool) (first second : AudioSubsystem)
    (hab : a ≠ b)
    (hFirst : (checkMicrophoneActive first).1 = a)
    (hSecond : (checkMicrophoneActive second).1 = b) :
    stdoutEffects (checkAndReportEach initialReporterState [first, second]).2 =
      [Effect.printf (reportLine a), Effect.fflush,
       Effect.printf (reportLine b), Effect.fflush] := by
  rw [checkAndReportEach_stdout]
  simp only [scanResults, List.map_cons, List.map_nil, hFirst, hSecond]
  cases a <;> cases b <;> first | exact absurd rfl hab | decide

/-- Witness for C6: a tick that scans false followed by a tick that scans true. -/
theorem checkAndReportEach_transition_witness :
    stdoutEffects (checkAndReportEach initialReporterState
      [systemScanning false, systemScanning true]).2 =
      [Effect.printf (reportLine false), Effect.fflush,
       Effect.printf (reportLine true), Effect.fflush] :=
  checkAndReportEach_transition false true (systemScanning false) (systemScanning true)
    (by decide) (by decide) (by decide)

/-- C7: whenever a call of `checkAndReport` writes the report of a value `v`, the
Reporter State after the call has `lastReportedState = v` and
`isFirstReport = false`; and whenever it writes any line at all, that line is the
report of the scanned value. -/
theorem checkAndReport_state_after_emit (sys : AudioSubsystem) (g : ReporterState)
    (text : String) (hEmit : Effect.printf text ∈ (checkAndReport sys g).2) :
    text = reportLine (checkAndReport sys g).1.lastReportedState ∧
    (checkAndReport sys g).1.isFirstReport = false ∧
    (checkAndReport sys g).1.lastReportedState = (checkMicrophoneActive sys).1 ∧
    (∀ v : Bool, text = reportLine v → (checkAndReport sys g).1.lastReportedState = v) := by
  rw [printf_mem_iff_stdout, checkAndReport_stdout] at hEmit
  by_cases h : g.isFirstReport = true ∨ (checkMicrophoneActive sys).1 ≠ g.lastReportedState
  · rw [if_pos h] at hEmit
    have ht : text = reportLine (checkMicrophoneActive sys).1 := by
      simpa [reportOf] using hEmit
    rw [checkAndReport_emit sys g h]
    refine ⟨ht, rfl, rfl, fun v hv => ?_⟩
    exact reportLine_injective _ _ (ht.symm.trans hv)
  · rw [if_neg h] at hEmit
    exact absurd hEmit (List.not_mem_nil _)

/-- Witness for C7: a tick that scans true from a state that last reported false. -/
theorem checkAndReport_state_after_emit_witness :
    Effect.printf (reportLine true) ∈
      (checkAndReport (systemScanning true)
        { lastReportedState := false, isFirstReport := false }).2 ∧
    (checkAndReport (systemScanning true)
        { lastReportedState := false, isFirstReport := false }).1.isFirstReport = false ∧
    (checkAndReport (systemScanning true)
        { lastReportedState := false, isFirstReport := false }).1.lastReportedState = true :=
  ⟨by decide,
   (checkAndReport_state_after_emit (systemScanning true)
      { lastReportedState := false, isFirstReport := false } (reportLine true)
      (by decide)).2.1,
   (checkAndReport_state_after_emit (systemScanning true)
      { lastReportedState := false, isFirstReport := false } (reportLine true)
      (by decide)).2.2.2 true rfl⟩

/-! ## Failures of the scan -/

/-- C8: `checkMicrophoneActive` returns false when acquiring the device enumerator
fails and when enumerating the endpoints fails, whatever devices and sessions the
snapshot holds; in the first case its only call is `CoCreateInstance`, in the second
its calls are `CoCreateInstance`, `EnumAudioEndpoints` and the release of the
enumerator, so no call is made on any device or session. -/
theorem checkMicrophoneActive_enumeration_failure (sys : AudioSubsystem)
    (hFail : FAILED sys.CoCreateInstance.1 = true ∨
      FAILED sys.CoCreateInstance.2.EnumAudioEndpoints.1 = true) :
    (checkMicrophoneActive sys).1 = false ∧
    (FAILED sys.CoCreateInstance.1 = true →
      (checkMicrophoneActive sys).2 = [Call.CoCreateInstance]) ∧
    (FAILED sys.CoCreateInstance.1 = false →
      (checkMicrophoneActive sys).2 =
        [Call.CoCreateInstance, Call.EnumAudioEndpoints, Call.Release Handle.pEnumerator]) ∧
    (∀ c ∈ (checkMicrophoneActive sys).2, c.deviceIndex = none ∧ c.sessionIndex = none) := by
  unfold checkMicrophoneActive
  cases h1 : FAILED sys.CoCreateInstance.1
  · have h2 : FAILED sys.CoCreateInstance.2.EnumAudioEndpoints.1 = true := by
      rcases hFail with h | h
      · rw [h1] at h; exact absurd h (by decide)
      · exact h
    simp [h1, h2, Call.deviceIndex, Call.sessionIndex]
  · simp [h1, Call.deviceIndex, Call.sessionIndex]

/-- Witness for C8: a subsystem with an active session behind a failing enumerator,
and the same behind a failing endpoint enumeration. -/
theorem checkMicrophoneActive_enumeration_failure_witness :
    (checkMicrophoneActive (systemScanning true)).1 = true ∧
    (checkMicrophoneActive (withoutEnumerator (systemScanning true))).1 = false ∧
    (checkMicrophoneActive (withoutEndpoints (systemScanning true))).1 = false ∧
    (checkMicrophoneActive (withoutEndpoints (systemScanning true))).2 =
      [Call.CoCreateInstance, Call.EnumAudioEndpoints, Call.Release Handle.pEnumerator] :=
  ⟨by decide,
   (checkMicrophoneActive_enumeration_failure (withoutEnumerator (systemScanning true))
      (Or.inl (by decide))).1,
   (checkMicrophoneActive_enumeration_failure (withoutEndpoints (systemScanning true))
      (Or.inr (by decide))).1,
   (checkMicrophoneActive_enumeration_failure (withoutEndpoints (systemScanning true))
      (Or.inr (by decide))).2.2.1 (by decide)⟩

/-! ## Failing devices and sessions -/

theorem any_range_insertAt {α : Type} (g : α → Bool) (f : Nat → α) (p n : Nat) (x : α)
    (hp : p ≤ n) (hx : g x = false) :
    (List.range (n + 1)).any (fun k => g (insertAt f p x k)) =
      (List.range n).any (fun k => g (f k)) := by
  rw [Bool.eq_iff_iff]
  simp only [List.any_eq_true, List.mem_range]
  constructor
  · rintro ⟨k, hk, hg⟩
    unfold insertAt at hg
    by_cases h1 : k < p
    · rw [if_pos h1] at hg
      exact ⟨k, by omega, hg⟩
    · rw [if_neg h1] at hg
      by_cases h2 : k = p
      · rw [if_pos h2, hx] at hg
        exact absurd hg (by decide)
      · rw [if_neg h2] at hg
        exact ⟨k - 1, by omega, hg⟩
  · rintro ⟨k, hk, hg⟩
    by_cases h1 : k < p
    · refine ⟨k, by omega, ?_⟩
      unfold insertAt
      rw [if_pos h1]
      exact hg
    · refine ⟨k + 1, by omega, ?_⟩
      unfold insertAt
      rw [if_neg (by omega), if_neg (by omega)]
      exact hg

theorem deviceOr_of_not_reachable (item : HRESULT × IMMDevice)
    (h : deviceReachable item = false) : deviceOr item = false := by
  simp [deviceOr, h]

theorem sessionActive_of_failure (got : HRESULT × IAudioSessionControl)
    (h : SUCCEEDED got.1 = false ∨ SUCCEEDED got.2.GetState.1 = false) :
    sessionActive got = false := by
  unfold sessionActive
  rcases h with h | h <;> simp [h]

theorem checkMicrophoneActive_withCollection (sys : AudioSubsystem)
    (c : IMMDeviceCollection) :
    (checkMicrophoneActive (sys.withCollection c)).1 =
      (SUCCEEDED sys.CoCreateInstance.1 &&
        (SUCCEEDED sys.CoCreateInstance.2.EnumAudioEndpoints.1 && observedState c)) := by
  rw [checkMicrophoneActive_fst]
  rfl

theorem observedState_insertDevice (c : IMMDeviceCollection) (p : Nat)
    (item : HRESULT × IMMDevice) (hp : p ≤ c.GetCount) (hItem : deviceOr item = false) :
    observedState { GetCount := c.GetCount + 1, Item := insertAt c.Item p item } =
      observedState c := by
  unfold observedState
  exact any_range_insertAt deviceOr c.Item p c.GetCount item hp hItem

theorem deviceOr_insertSession (item : HRESULT × IMMDevice) (p : Nat)
    (got : HRESULT × IAudioSessionControl)
    (hp : (p : Int) ≤ item.2.sessionEnum.GetCount) (hGot : sessionActive got = false) :
    deviceOr (withSessionEnum item
      { GetCount := item.2.sessionEnum.GetCount + 1
        GetSession := insertAt item.2.sessionEnum.GetSession p got }) = deviceOr item := by
  have hn : (item.2.sessionEnum.GetCount + 1).toNat = item.2.sessionEnum.GetCount.toNat + 1 := by
    omega
  have hp2 : p ≤ item.2.sessionEnum.GetCount.toNat := by omega
  unfold deviceOr
  have hr : deviceReachable (withSessionEnum item
      { GetCount := item.2.sessionEnum.GetCount + 1
        GetSession := insertAt item.2.sessionEnum.GetSession p got }) = deviceReachable item := rfl
  rw [hr]
  congr 1
  show (List.range (item.2.sessionEnum.GetCount + 1).toNat).any
      (fun j => sessionActive (insertAt item.2.sessionEnum.GetSession p got j)) = _
  rw [hn]
  exact any_range_insertAt sessionActive _ p _ got hp2 hGot

theorem observedState_insertSession (c : IMMDeviceCollection) (i p : Nat)
    (got : HRESULT × IAudioSessionControl)
    (hp : (p : Int) ≤ (c.Item i).2.sessionEnum.GetCount) (hGot : sessionActive got = false) :
    observedState
      { GetCount := c.GetCount
        Item := fun k =>
          if k = i then
            withSessionEnum (c.Item i)
              { GetCount := (c.Item i).2.sessionEnum.GetCount + 1
                GetSession := insertAt (c.Item i).2.sessionEnum.GetSession p got }
          else c.Item k } = observedState c := by
  unfold observedState
  congr 1
  funext k
  by_cases hk : k = i
  · simp only [hk, if_true]
    exact deviceOr_insertSession (c.Item i) p got hp hGot
  · simp only [hk, if_false]

/-- C9: a failing device or session never hides activity elsewhere.  Inserting, at any
position of the collection, a device whose retrieval, session-manager activation or
session-enumerator acquisition fails leaves the result of `checkMicrophoneActive`
unchanged; so does inserting, at any position of the sessions of a device, a session
whose retrieval or state read fails, whatever its state variable holds; whenever the
enumerator and the endpoint enumeration succeed, an enumerable session in state active
makes the result true whatever the other devices and sessions answer; and after such a
session the session loop goes on with the next index, as the device loop does after
such a device. -/
theorem checkMicrophoneActive_failure_hides_nothing (sys : AudioSubsystem) :
    (∀ (p : Nat) (item : HRESULT × IMMDevice), p ≤ sys.collection.GetCount →
      (FAILED item.1 = true ∨ SUCCEEDED item.2.Activate.1 = false ∨
        SUCCEEDED item.2.Activate.2.GetSessionEnumerator.1 = false) →
      (checkMicrophoneActive (insertDevice sys p item)).1 = (checkMicrophoneActive sys).1) ∧
    (∀ (i p : Nat) (got : HRESULT × IAudioSessionControl),
      (p : Int) ≤ (sys.collection.Item i).2.sessionEnum.GetCount →
      (SUCCEEDED got.1 = false ∨ SUCCEEDED got.2.GetState.1 = false) →
      (checkMicrophoneActive (insertSession sys i p got)).1 = (checkMicrophoneActive sys).1) ∧
    (∀ i j : Nat, SUCCEEDED sys.CoCreateInstance.1 = true →
      SUCCEEDED sys.CoCreateInstance.2.EnumAudioEndpoints.1 = true →
      i < sys.collection.GetCount →
      (j : Int) < (sys.collection.Item i).2.sessionEnum.GetCount →
      deviceReachable (sys.collection.Item i) = true →
      sessionActive ((sys.collection.Item i).2.sessionEnum.GetSession j) = true →
      (checkMicrophoneActive sys).1 = true) ∧
    (∀ (i n j : Nat) (e : IAudioSessionEnumerator),
      (SUCCEEDED (e.GetSession j).1 = false ∨
        SUCCEEDED (e.GetSession j).2.GetState.1 = false) →
      sessionLoop i e (n + 1) j false =
        ((sessionLoop i e n (j + 1) false).1,
         (sessionBody i e j false).2 ++ (sessionLoop i e n (j + 1) false).2)) ∧
    (∀ (n i : Nat) (coll : IMMDeviceCollection),
      (FAILED (coll.Item i).1 = true ∨ SUCCEEDED (coll.Item i).2.Activate.1 = false ∨
        SUCCEEDED (coll.Item i).2.Activate.2.GetSessionEnumerator.1 = false) →
      deviceLoop coll (n + 1) i false =
        ((deviceLoop coll n (i + 1) false).1,
         (deviceBody coll i false).2 ++ (deviceLoop coll n (i + 1) false).2)) := by
  have hUnreachable : ∀ item : HRESULT × IMMDevice,
      (FAILED item.1 = true ∨ SUCCEEDED item.2.Activate.1 = false ∨
        SUCCEEDED item.2.Activate.2.GetSessionEnumerator.1 = false) →
      deviceOr item = false := by
    intro item hfail
    apply deviceOr_of_not_reachable
    unfold deviceReachable
    rcases hfail with h | h | h
    · rw [FAILED_eq_not_SUCCEEDED] at h
      simp only [Bool.not_eq_true'] at h
      simp [h]
    · simp [h]
    · simp [h]
  refine ⟨?_, ?_, ?_, ?_, ?_⟩
  · intro p item hp hfail
    have hItem : deviceOr item = false := hUnreachable item hfail
    unfold insertDevice
    rw [checkMicrophoneActive_withCollection, observedState_insertDevice _ _ _ hp hItem,
      checkMicrophoneActive_fst]
  · intro i p got hp hfail
    unfold insertSession
    rw [checkMicrophoneActive_withCollection,
      observedState_insertSession _ _ _ _ hp (sessionActive_of_failure got hfail),
      checkMicrophoneActive_fst]
  · intro i j h1 h2 hi hj hr hs
    rw [checkMicrophoneActive_fst, h1, h2]
    simp only [Bool.true_and]
    exact (observedState_eq_true_iff _).mpr ⟨i, j, hi, hj, hr, hs⟩
  · intro i n j e hfail
    have hb : (sessionBody i e j false).1 = false := by
      rw [sessionBody_fst, sessionActive_of_failure _ hfail]
      rfl
    simp only [sessionLoop, hb, Bool.false_eq_true, if_false]
  · intro n i coll hfail
    have hb : (deviceBody coll i false).1 = false := by
      rw [deviceBody_fst, hUnreachable _ hfail]
      rfl
    simp only [deviceLoop, hb, Bool.false_eq_true, if_false]

/-! ## The calls of a scan -/

theorem sessionBody_calls (i : Nat) (e : IAudioSessionEnumerator) (j : Nat) (a : Bool)
    (c : Call) (hc : c ∈ (sessionBody i e j a).2) :
    c.deviceIndex = some i ∧ c.sessionIndex = some j := by
  unfold sessionBody at hc
  cases h : SUCCEEDED (e.GetSession j).1
  · simp only [h, Bool.false_eq_true, if_false, List.mem_singleton] at hc
    subst hc
    exact ⟨rfl, rfl⟩
  · simp only [h, if_true, List.mem_cons, List.mem_singleton, List.not_mem_nil, or_false] at hc
    rcases hc with hc | hc | hc <;> subst hc <;> exact ⟨rfl, rfl⟩

theorem sessionLoop_calls (i : Nat) (e : IAudioSessionEnumerator) (n : Nat) :
    ∀ (j : Nat) (a : Bool) (c : Call), c ∈ (sessionLoop i e n j a).2 →
      c.deviceIndex = some i ∧
      ∃ k, c.sessionIndex = some k ∧ j ≤ k ∧ k < j + n ∧
        ∀ k₀, j ≤ k₀ → sessionActive (e.GetSession k₀) = true → k ≤ k₀ := by
  induction n with
  | zero => intro j a c hc; simp [sessionLoop] at hc
  | succ n ih =>
    intro j a c hc
    simp only [sessionLoop] at hc
    cases hb : (sessionBody i e j a).1
    · simp only [hb, Bool.false_eq_true, if_false, List.mem_append] at hc
      rcases hc with hc | hc
      · have := sessionBody_calls i e j a c hc
        exact ⟨this.1, j, this.2, le_refl j, by omega, fun k₀ h _ => h⟩
      · obtain ⟨hd, k, hk, hjk, hkn, hfirst⟩ := ih (j + 1) false c hc
        refine ⟨hd, k, hk, by omega, by omega, fun k₀ h₀ hact => ?_⟩
        by_cases hkj : k₀ = j
        · subst hkj
          rw [sessionBody_fst, hact] at hb
          simp at hb
        · exact hfirst k₀ (by omega) hact
    · simp only [hb, if_true] at hc
      have := sessionBody_calls i e j a c hc
      exact ⟨this.1, j, this.2, le_refl j, by omega, fun k₀ h _ => h⟩

theorem deviceBody_calls (coll : IMMDeviceCollection) (i : Nat) (a : Bool) (c : Call)
    (hc : c ∈ (deviceBody coll i a).2) :
    c.deviceIndex = some i ∧
    ∀ k, c.sessionIndex = some k →
      (k : Int) < (coll.Item i).2.sessionEnum.GetCount ∧
      ∀ k₀, sessionActive ((coll.Item i).2.sessionEnum.GetSession k₀) = true → k ≤ k₀ := by
  unfold deviceBody at hc
  cases h1 : FAILED (coll.Item i).1
  · cases h2 : SUCCEEDED (coll.Item i).2.Activate.1
    · simp only [h1, h2, Bool.false_eq_true, if_false, List.mem_cons, List.mem_singleton,
        List.not_mem_nil, or_false] at hc
      rcases hc with hc | hc | hc <;> subst hc <;>
        exact ⟨rfl, fun k hk => by simp [Call.sessionIndex] at hk⟩
    · cases h3 : SUCCEEDED (coll.Item i).2.Activate.2.GetSessionEnumerator.1
      · simp only [h1, h2, h3, Bool.false_eq_true, if_false, if_true, List.mem_cons,
          List.mem_singleton, List.not_mem_nil, or_false] at hc
        rcases hc with hc | hc | hc | hc | hc <;> subst hc <;>
          exact ⟨rfl, fun k hk => by simp [Call.sessionIndex] at hk⟩
      · simp only [h1, h2, h3, Bool.false_eq_true, if_false, if_true, List.mem_append,
          List.mem_cons, List.mem_singleton, List.not_mem_nil, or_false] at hc
        rcases hc with ((hc | hc | hc | hc) | hc) | hc | hc | hc
        any_goals (subst hc; exact ⟨rfl, fun k hk => by simp [Call.sessionIndex] at hk⟩)
        obtain ⟨hd, k, hk, _, hkn, hfirst⟩ := sessionLoop_calls i _ _ 0 a c hc
        refine ⟨hd, fun k' hk' => ?_⟩
        have hkk : k' = k := by
          rw [hk] at hk'
          exact (Option.some.inj hk').symm
        subst hkk
        refine ⟨?_, fun k₀ hact => hfirst k₀ (Nat.zero_le _) hact⟩
        have : k' < (coll.Item i).2.sessionEnum.GetCount.toNat := by
          simpa [IMMDevice.sessionEnum] using hkn
        exact Int.lt_toNat.mp this
  · simp only [h1, if_true, List.mem_singleton] at hc
    subst hc
    exact ⟨rfl, fun k hk => by simp [Call.sessionIndex] at hk⟩

theorem deviceLoop_calls_of_active (coll : IMMDeviceCollection) (n i : Nat) :
    (deviceLoop coll n i true).2 = [] := by
  cases n <;> simp [deviceLoop]

theorem deviceLoop_calls (coll : IMMDeviceCollection) (n : Nat) :
    ∀ (i : Nat) (a : Bool) (c : Call), c ∈ (deviceLoop coll n i a).2 →
      ∃ k, c ∈ (deviceBody coll k false).2 ∧ i ≤ k ∧ k < i + n ∧
        ∀ k₀, i ≤ k₀ → deviceOr (coll.Item k₀) = true → k ≤ k₀ := by
  induction n with
  | zero => intro i a c hc; simp [deviceLoop] at hc
  | succ n ih =>
    intro i a c hc
    cases a
    · simp only [deviceLoop, Bool.false_eq_true, if_false, List.mem_append] at hc
      rcases hc with hc | hc
      · exact ⟨i, hc, le_refl i, by omega, fun k₀ h _ => h⟩
      · obtain ⟨k, hk, hik, hkn, hfirst⟩ := ih (i + 1) _ c hc
        refine ⟨k, hk, by omega, by omega, fun k₀ h₀ hact => ?_⟩
        by_cases hki : k₀ = i
        · have hb : (deviceBody coll i false).1 = true := by
            rw [deviceBody_fst, ← hki, hact]; rfl
          rw [hb, deviceLoop_calls_of_active] at hc
          exact absurd hc (List.not_mem_nil _)
        · exact hfirst k₀ (by omega) hact
    · rw [deviceLoop_calls_of_active] at hc
      exact absurd hc (List.not_mem_nil _)

theorem checkMicrophoneActive_calls (sys : AudioSubsystem) (c : Call)
    (hc : c ∈ (checkMicrophoneActive sys).2) :
    (c.deviceIndex = none ∧ c.sessionIndex = none) ∨
      c ∈ (deviceLoop sys.collection sys.collection.GetCount 0 false).2 := by
  unfold checkMicrophoneActive at hc
  cases h1 : FAILED sys.CoCreateInstance.1
  · cases h2 : FAILED sys.CoCreateInstance.2.EnumAudioEndpoints.1
    · simp only [h1, h2, Bool.false_eq_true, if_false, List.mem_append, List.mem_cons,
        List.mem_singleton, List.not_mem_nil, or_false] at hc
      rcases hc with ((hc | hc | hc) | hc) | hc | hc
      any_goals (subst hc; exact Or.inl ⟨rfl, rfl⟩)
      exact Or.inr hc
    · simp only [h1, h2, Bool.false_eq_true, if_false, if_true, List.mem_cons,
        List.mem_singleton, List.not_mem_nil, or_false] at hc
      rcases hc with hc | hc | hc <;> subst hc <;> exact Or.inl ⟨rfl, rfl⟩
  · simp only [h1, if_true, List.mem_singleton] at hc
    subst hc
    exact Or.inl ⟨rfl, rfl⟩

/-- Witness for C9: a device without session manager is inserted in front of a device
with an active session; a session whose state read fails, with the value of
`AudioSessionStateActive` left in its state variable, is inserted in front of an
active session and in front of an inactive one. -/
theorem checkMicrophoneActive_failure_hides_nothing_witness :
    ((checkMicrophoneActive (insertDevice (systemScanning true) 0 deviceWithoutManager)).1
        = (checkMicrophoneActive (systemScanning true)).1 ∧
      (checkMicrophoneActive (insertDevice (systemScanning true) 0 deviceWithoutManager)).1
        = true) ∧
    ((checkMicrophoneActive
        (insertSession (systemScanning true) 0 0 (sessionUnreadable AudioSessionStateActive))).1
        = (checkMicrophoneActive (systemScanning true)).1 ∧
      (checkMicrophoneActive
        (insertSession (systemScanning true) 0 0 (sessionUnreadable AudioSessionStateActive))).2
        = [Call.CoCreateInstance, Call.EnumAudioEndpoints, Call.CollectionGetCount,
           Call.Item 0, Call.Activate 0, Call.GetSessionEnumerator 0, Call.SessionGetCount 0,
           Call.GetSession 0 0, Call.GetState 0 0, Call.Release (Handle.pSessionControl 0 0),
           Call.GetSession 0 1, Call.GetState 0 1, Call.Release (Handle.pSessionControl 0 1),
           Call.Release (Handle.pSessionEnum 0), Call.Release (Handle.pSessionManager 0),
           Call.Release (Handle.pDevice 0),
           Call.Release Handle.pCollection, Call.Release Handle.pEnumerator]) ∧
    (checkMicrophoneActive
        (insertSession (systemScanning false) 0 0 (sessionUnreadable AudioSessionStateActive))).1
      = false ∧
    (checkMicrophoneActive (systemScanning true)).1 = true :=
  ⟨⟨(checkMicrophoneActive_failure_hides_nothing (systemScanning true)).1 0
        deviceWithoutManager (by decide) (Or.inr (Or.inl (by decide))),
    by decide⟩,
   ⟨(checkMicrophoneActive_failure_hides_nothing (systemScanning true)).2.1 0 0
        (sessionUnreadable AudioSessionStateActive) (by decide) (Or.inr (by decide)),
    by decide⟩,
   ((checkMicrophoneActive_failure_hides_nothing (systemScanning false)).2.1 0 0
        (sessionUnreadable AudioSessionStateActive) (by decide) (Or.inr (by decide))).trans
      (by decide),
   (checkMicrophoneActive_failure_hides_nothing (systemScanning true)).2.2.1 0 0
      (by decide) (by decide) (by decide) (by decide) (by decide) (by decide)⟩

/-! ## Short-circuit -/

/-- C10: the scan short-circuits.  When the enumerator and the endpoint enumeration
succeed and session `j₀` of device `i₀` is found active (both indices below the
reported counts, the device reachable), in particular when they are the first such
device and session, `checkMicrophoneActive` returns true, makes no call at all under a
device index after `i₀` (no `Item`, no `GetSessionEnumerator`, no session `GetCount`,
no `GetSession`), and under device `i₀` makes no call on a session after `j₀`. -/
theorem checkMicrophoneActive_short_circuits (sys : AudioSubsystem) (i₀ j₀ : Nat)
    (hEnumerator : SUCCEEDED sys.CoCreateInstance.1 = true)
    (hEndpoints : SUCCEEDED sys.CoCreateInstance.2.EnumAudioEndpoints.1 = true)
    (hDevice : i₀ < sys.collection.GetCount)
    (hReachable : deviceReachable (sys.collection.Item i₀) = true)
    (hSession : (j₀ : Int) < (sys.collection.Item i₀).2.sessionEnum.GetCount)
    (hActive : sessionActive ((sys.collection.Item i₀).2.sessionEnum.GetSession j₀) = true) :
    (checkMicrophoneActive sys).1 = true ∧
    (∀ c ∈ (checkMicrophoneActive sys).2,
      (∀ i, c.deviceIndex = some i → i ≤ i₀) ∧
      (∀ j, c.deviceIndex = some i₀ → c.sessionIndex = some j → j ≤ j₀)) ∧
    (∀ i j, i₀ < i →
      Call.Item i ∉ (checkMicrophoneActive sys).2 ∧
      Call.Activate i ∉ (checkMicrophoneActive sys).2 ∧
      Call.GetSessionEnumerator i ∉ (checkMicrophoneActive sys).2 ∧
      Call.SessionGetCount i ∉ (checkMicrophoneActive sys).2 ∧
      Call.GetSession i j ∉ (checkMicrophoneActive sys).2 ∧
      Call.GetState i j ∉ (checkMicrophoneActive sys).2) ∧
    (∀ j, j₀ < j →
      Call.GetSession i₀ j ∉ (checkMicrophoneActive sys).2 ∧
      Call.GetState i₀ j ∉ (checkMicrophoneActive sys).2) := by
  have hOr : deviceOr (sys.collection.Item i₀) = true := by
    unfold deviceOr
    rw [hReachable, Bool.true_and, List.any_eq_true]
    exact ⟨j₀, List.mem_range.mpr (Int.lt_toNat.mpr hSession), hActive⟩
  have hCalls : ∀ c ∈ (checkMicrophoneActive sys).2,
      (∀ i, c.deviceIndex = some i → i ≤ i₀) ∧
      (∀ j, c.deviceIndex = some i₀ → c.sessionIndex = some j → j ≤ j₀) := by
    intro c hc
    rcases checkMicrophoneActive_calls sys c hc with h | h
    · refine ⟨fun i hi => ?_, fun j hi _ => ?_⟩
      · rw [h.1] at hi; exact absurd hi (by simp)
      · rw [h.1] at hi; exact absurd hi (by simp)
    · obtain ⟨k, hk, _, _, hfirst⟩ := deviceLoop_calls _ _ 0 false c h
      have hbody := deviceBody_calls _ k false c hk
      have hk₀ : k ≤ i₀ := hfirst i₀ (Nat.zero_le _) hOr
      refine ⟨fun i hi => ?_, fun j hi hj => ?_⟩
      · rw [hbody.1] at hi
        exact (Option.some.inj hi) ▸ hk₀
      · rw [hbody.1] at hi
        have hki : k = i₀ := Option.some.inj hi
        subst hki
        exact (hbody.2 j hj).2 j₀ hActive
  refine ⟨?_, hCalls, fun i j hi => ?_, fun j hj => ?_⟩
  · rw [checkMicrophoneActive_fst, hEnumerator, hEndpoints]
    simp only [Bool.true_and]
    exact (observedState_eq_true_iff _).mpr ⟨i₀, j₀, hDevice, hSession, hReachable, hActive⟩
  · have key : ∀ c : Call, c.deviceIndex = some i → c ∉ (checkMicrophoneActive sys).2 :=
      fun c hd hc => absurd ((hCalls c hc).1 i hd) (by omega)
    exact ⟨key _ rfl, key _ rfl, key _ rfl, key _ rfl, key _ rfl, key _ rfl⟩
  · have key : ∀ c : Call, c.deviceIndex = some i₀ → c.sessionIndex = some j →
        c ∉ (checkMicrophoneActive sys).2 :=
      fun c hd hs hc => absurd ((hCalls c hc).2 j hd hs) (by omega)
    exact ⟨key _ rfl rfl, key _ rfl rfl⟩

/-- Witness for C10: of three devices, the first without active session and the
other two with one active session each, the scan returns true after the first session
of the second device; no call is made under device index 2. -/
theorem checkMicrophoneActive_short_circuits_witness :
    (checkMicrophoneActive threeDevices).1 = true ∧
    (checkMicrophoneActive threeDevices).2 =
      [Call.CoCreateInstance, Call.EnumAudioEndpoints, Call.CollectionGetCount,
       Call.Item 0, Call.Activate 0, Call.GetSessionEnumerator 0, Call.SessionGetCount 0,
       Call.GetSession 0 0, Call.GetState 0 0, Call.Release (Handle.pSessionControl 0 0),
       Call.Release (Handle.pSessionEnum 0), Call.Release (Handle.pSessionManager 0),
       Call.Release (Handle.pDevice 0),
       Call.Item 1, Call.Activate 1, Call.GetSessionEnumerator 1, Call.SessionGetCount 1,
       Call.GetSession 1 0, Call.GetState 1 0, Call.Release (Handle.pSessionControl 1 0),
       Call.Release (Handle.pSessionEnum 1), Call.Release (Handle.pSessionManager 1),
       Call.Release (Handle.pDevice 1),
       Call.Release Handle.pCollection, Call.Release Handle.pEnumerator] ∧
    Call.GetSessionEnumerator 2 ∉ (checkMicrophoneActive threeDevices).2 ∧
    Call.SessionGetCount 2 ∉ (checkMicrophoneActive threeDevices).2 ∧
    Call.GetSession 2 0 ∉ (checkMicrophoneActive threeDevices).2 :=
  ⟨(checkMicrophoneActive_short_circuits threeDevices 1 0
      (by decide) (by decide) (by decide) (by decide) (by decide) (by decide)).1,
   by decide,
   ((checkMicrophoneActive_short_circuits threeDevices 1 0
      (by decide) (by decide) (by decide) (by decide) (by decide) (by decide)).2.2.1
        2 0 (by decide)).2.2.1,
   ((checkMicrophoneActive_short_circuits threeDevices 1 0
      (by decide) (by decide) (by decide) (by decide) (by decide) (by decide)).2.2.1
        2 0 (by decide)).2.2.2.1,
   ((checkMicrophoneActive_short_circuits threeDevices 1 0
      (by decide) (by decide) (by decide) (by decide) (by decide) (by decide)).2.2.1
        2 0 (by decide)).2.2.2.2.1⟩

/-! ## The report line and the Reporter State -/

theorem checkAndReport_state (sys : AudioSubsystem) (g : ReporterState) :
    (checkAndReport sys g).1 =
      { lastReportedState := (checkMicrophoneActive sys).1, isFirstReport := false } := by
  by_cases h : g.isFirstReport = true ∨ (checkMicrophoneActive sys).1 ≠ g.lastReportedState
  · rw [checkAndReport_emit sys g h]
  · rw [checkAndReport_silent sys g h]
    rw [not_or] at h
    simp only [ne_eq, not_not, Bool.not_eq_true] at h
    cases g with
    | mk l f =>
      simp only at h
      rw [h.1, h.2]

/-- C11: the report line is exactly `{"micActive":true}` followed by one newline for the
value true and `{"micActive":false}` followed by one newline for the value false; every
line `checkAndReport` writes is the one of the scanned value; and a tick that emits
does, after the calls of the scan, exactly one `printf` of that line and then the
`fflush`, which is its last effect. -/
theorem checkAndReport_report_text (sys : AudioSubsystem) (g : ReporterState) :
    reportLine true = "\x7b\"micActive\":true\x7d\n" ∧
    reportLine false = "\x7b\"micActive\":false\x7d\n" ∧
    (∀ text, Effect.printf text ∈ (checkAndReport sys g).2 →
      text = reportLine (checkMicrophoneActive sys).1) ∧
    ((g.isFirstReport = true ∨ (checkMicrophoneActive sys).1 ≠ g.lastReportedState) →
      (checkAndReport sys g).2 =
        (checkMicrophoneActive sys).2.map Effect.com ++
          [Effect.printf (reportLine (checkMicrophoneActive sys).1), Effect.fflush] ∧
      stdoutEffects (checkAndReport sys g).2 =
        [Effect.printf (reportLine (checkMicrophoneActive sys).1), Effect.fflush]) := by
  refine ⟨by decide, by decide, fun text hmem => ?_, fun h => ⟨?_, ?_⟩⟩
  · rw [printf_mem_iff_stdout, checkAndReport_stdout] at hmem
    split at hmem
    · simpa [reportOf] using hmem
    · exact absurd hmem (List.not_mem_nil _)
  · rw [checkAndReport_emit sys g h]
    rfl
  · rw [checkAndReport_stdout, if_pos h]
    rfl

/-- Witness for C11: the first tick on a snapshot that scans true. -/
theorem checkAndReport_report_text_witness :
    stdoutEffects (checkAndReport (systemScanning true) initialReporterState).2 =
      [Effect.printf "\x7b\"micActive\":true\x7d\n", Effect.fflush] :=
  ((checkAndReport_report_text (systemScanning true) initialReporterState).2.2.2
    (Or.inl rfl)).2.trans (by decide)

/-- C12: on a tick that emits no report (`isFirstReport` is false and the scan result
equals `lastReportedState`), `checkAndReport` leaves both globals unchanged and writes
nothing. -/
theorem checkAndReport_silent_tick (sys : AudioSubsystem) (g : ReporterState)
    (hFirst : g.isFirstReport = false)
    (hSame : (checkMicrophoneActive sys).1 = g.lastReportedState) :
    (checkAndReport sys g).1 = g ∧
    (checkAndReport sys g).1.lastReportedState = g.lastReportedState ∧
    (checkAndReport sys g).1.isFirstReport = g.isFirstReport ∧
    stdoutEffects (checkAndReport sys g).2 = [] := by
  have h : ¬ (g.isFirstReport = true ∨ (checkMicrophoneActive sys).1 ≠ g.lastReportedState) := by
    simp [hFirst, hSame]
  have hs := checkAndReport_silent sys g h
  refine ⟨by rw [hs], by rw [hs], by rw [hs], ?_⟩
  rw [hs, stdoutEffects_com]

/-- Witness for C12: a tick that scans true in the state `Reported(true)`. -/
theorem checkAndReport_silent_tick_witness :
    (checkAndReport (systemScanning true)
        { lastReportedState := true, isFirstReport := false }).1 =
      { lastReportedState := true, isFirstReport := false } :=
  (checkAndReport_silent_tick (systemScanning true)
    { lastReportedState := true, isFirstReport := false } rfl (by decide)).1

theorem checkAndReportEach_isFirstReport (ticks : List AudioSubsystem) :
    ∀ g : ReporterState, g.isFirstReport = false →
      (checkAndReportEach g ticks).1.isFirstReport = false := by
  induction ticks with
  | nil => intro g hg; exact hg
  | cons sys later ih =>
    intro g _
    simp only [checkAndReportEach]
    apply ih
    rw [checkAndReport_state]

/-- C14: `isFirstReport` is true in the initial Reporter State, is false after every
call of `checkAndReport`, and once false stays false over any sequence of ticks; the
Reporter State after a call depends on the scan only through the boolean it returns
(the scan has no access to the globals). -/
theorem isFirstReport_never_reset (sys : AudioSubsystem) (g : ReporterState)
    (ticks : List AudioSubsystem) :
    initialReporterState.isFirstReport = true ∧
    (checkAndReport sys g).1.isFirstReport = false ∧
    (checkAndReportEach (checkAndReport sys g).1 ticks).1.isFirstReport = false ∧
    (g.isFirstReport = false → (checkAndReportEach g ticks).1.isFirstReport = false) ∧
    (∀ sys' : AudioSubsystem, (checkMicrophoneActive sys').1 = (checkMicrophoneActive sys).1 →
      (checkAndReport sys' g).1 = (checkAndReport sys g).1) := by
  have h1 : (checkAndReport sys g).1.isFirstReport = false := by rw [checkAndReport_state]
  refine ⟨rfl, h1, checkAndReportEach_isFirstReport ticks _ h1,
    checkAndReportEach_isFirstReport ticks g, fun sys' h => ?_⟩
  rw [checkAndReport_state, checkAndReport_state, h]

/-- Witness for C14: three ticks from the initial state, scanning true, false, false. -/
theorem isFirstReport_never_reset_witness :
    (checkAndReportEach (checkAndReport (systemScanning true) initialReporterState).1
      [systemScanning false, systemScanning false]).1.isFirstReport = false ∧
    (checkAndReportEach { lastReportedState := true, isFirstReport := false }
      [systemScanning false, systemScanning false]).1.isFirstReport = false :=
  ⟨(isFirstReport_never_reset (systemScanning true) initialReporterState
      [systemScanning false, systemScanning false]).2.2.1,
   (isFirstReport_never_reset (systemScanning true)
      { lastReportedState := true, isFirstReport := false }
      [systemScanning false, systemScanning false]).2.2.2.1 rfl⟩

theorem checkAndReportEach_lastReportedState (later : List AudioSubsystem) :
    ∀ (g : ReporterState) (sys : AudioSubsystem),
      (checkAndReportEach g (sys :: later)).1.lastReportedState =
        (scanResults later).getLastD (checkMicrophoneActive sys).1 := by
  induction later with
  | nil =>
    intro g sys
    simp only [checkAndReportEach, scanResults, List.map_nil, List.getLastD_nil]
    rw [checkAndReport_state]
  | cons s l ih =>
    intro g sys
    have h := ih (checkAndReport sys g).1 s
    simp only [scanResults, List.map_cons, List.getLastD_cons] at h ⊢
    rw [← h]
    simp only [checkAndReportEach]

theorem checkAndReportEach_stdout_ends (ticks : List AudioSubsystem) :
    ∀ g : ReporterState, g.isFirstReport = false →
      (stdoutEffects (checkAndReportEach g ticks).2 = [] ∧
        (checkAndReportEach g ticks).1.lastReportedState = g.lastReportedState) ∨
      ∃ pre, stdoutEffects (checkAndReportEach g ticks).2 =
        pre ++ reportOf (checkAndReportEach g ticks).1.lastReportedState := by
  induction ticks with
  | nil => intro g _; exact Or.inl ⟨rfl, rfl⟩
  | cons sys later ih =>
    intro g hg
    have hstate := checkAndReport_state sys g
    have hg1 : (checkAndReport sys g).1.isFirstReport = false := by rw [hstate]
    have hl1 : (checkAndReport sys g).1.lastReportedState = (checkMicrophoneActive sys).1 := by
      rw [hstate]
    simp only [checkAndReportEach, stdoutEffects_append]
    rcases ih (checkAndReport sys g).1 hg1 with ⟨hnil, hlast⟩ | ⟨pre, hpre⟩
    · rw [hnil, List.append_nil, hlast, hl1, checkAndReport_stdout]
      by_cases h : g.isFirstReport = true ∨ (checkMicrophoneActive sys).1 ≠ g.lastReportedState
      · rw [if_pos h]
        exact Or.inr ⟨[], rfl⟩
      · rw [if_neg h]
        rw [not_or] at h
        simp only [ne_eq, not_not] at h
        exact Or.inl ⟨rfl, h.2⟩
    · rw [hpre]
      exact Or.inr ⟨stdoutEffects (checkAndReport sys g).2 ++ pre, by rw [List.append_assoc]⟩

/-- C17: after every call of `checkAndReport`, from every Reporter State and whether or
not it emitted, `lastReportedState` is the scan result of that call; so after a first
tick and any further ticks from the initial state, `lastReportedState` is the most
recent scan result and the last line written is the report of that result, followed by
its flush. -/
theorem lastReportedState_is_latest_scan (sys : AudioSubsystem) (g : ReporterState)
    (later : List AudioSubsystem) :
    (checkAndReport sys g).1.lastReportedState = (checkMicrophoneActive sys).1 ∧
    (checkAndReportEach g (sys :: later)).1.lastReportedState =
      (scanResults later).getLastD (checkMicrophoneActive sys).1 ∧
    ∃ pre, stdoutEffects (checkAndReportEach initialReporterState (sys :: later)).2 =
      pre ++ [Effect.printf (reportLine ((scanResults later).getLastD (checkMicrophoneActive sys).1)),
              Effect.fflush] := by
  refine ⟨by rw [checkAndReport_state], checkAndReportEach_lastReportedState later g sys, ?_⟩
  have hlast := checkAndReportEach_lastReportedState later initialReporterState sys
  have hstate := checkAndReport_state sys initialReporterState
  have hg1 : (checkAndReport sys initialReporterState).1.isFirstReport = false := by rw [hstate]
  have hemit : stdoutEffects (checkAndReport sys initialReporterState).2 =
      reportOf (checkMicrophoneActive sys).1 := by
    have hs : initialReporterState.isFirstReport = true ∨
        (checkMicrophoneActive sys).1 ≠ initialReporterState.lastReportedState := Or.inl rfl
    rw [checkAndReport_stdout, if_pos hs]
  rw [← hlast]
  simp only [checkAndReportEach, stdoutEffects_append, hemit]
  rcases checkAndReportEach_stdout_ends later _ hg1 with ⟨hnil, hl⟩ | ⟨pre, hpre⟩
  · refine ⟨[], ?_⟩
    rw [hnil, hl, hstate]
    rfl
  · refine ⟨reportOf (checkMicrophoneActive sys).1 ++ pre, ?_⟩
    rw [hpre, List.append_assoc]
    rfl

/-! ## `main` -/

theorem checkAndReport_effects (sys : AudioSubsystem) (g : ReporterState) (e : Effect)
    (he : e ∈ (checkAndReport sys g).2) : isScanOrStdout e = true := by
  by_cases h : g.isFirstReport = true ∨ (checkMicrophoneActive sys).1 ≠ g.lastReportedState
  · rw [checkAndReport_emit sys g h] at he
    simp only [List.mem_append, List.mem_map, reportOf, List.mem_cons, List.mem_singleton,
      List.not_mem_nil, or_false] at he
    rcases he with ⟨c, _, hc⟩ | hc | hc <;> subst hc <;> rfl
  · rw [checkAndReport_silent sys g h] at he
    simp only [List.mem_map] at he
    obtain ⟨c, _, hc⟩ := he
    subst hc
    rfl

theorem whileLoop_eq (later : List AudioSubsystem) :
    ∀ g : ReporterState,
      whileLoop g later = (none, (checkAndReportEach g later).1, sleepThenTick g later) := by
  induction later with
  | nil => intro g; rfl
  | cons sys l ih =>
    intro g
    simp only [whileLoop, if_true, ih, checkAndReportEach, sleepThenTick]

theorem sleepThenTick_effects (later : List AudioSubsystem) :
    ∀ (g : ReporterState) (e : Effect), e ∈ sleepThenTick g later →
      e = Effect.Sleep 2000 ∨ isScanOrStdout e = true := by
  induction later with
  | nil => intro g e he; simp [sleepThenTick] at he
  | cons sys l ih =>
    intro g e he
    simp only [sleepThenTick, List.cons_append, List.mem_cons, List.mem_append] at he
    rcases he with he | he | he
    · exact Or.inl he
    · exact Or.inr (checkAndReport_effects sys g e he)
    · exact ih _ e he

theorem count_Sleep_checkAndReport (sys : AudioSubsystem) (g : ReporterState) :
    (checkAndReport sys g).2.count (Effect.Sleep 2000) = 0 := by
  rw [List.count_eq_zero]
  intro he
  have := checkAndReport_effects sys g _ he
  simp [isScanOrStdout] at this

theorem count_Sleep_sleepThenTick (later : List AudioSubsystem) :
    ∀ g : ReporterState, (sleepThenTick g later).count (Effect.Sleep 2000) = later.length := by
  induction later with
  | nil => intro g; rfl
  | cons sys l ih =>
    intro g
    simp only [sleepThenTick, List.cons_append, List.count_cons_self, List.count_append,
      count_Sleep_checkAndReport, ih, List.length_cons, Nat.zero_add]

/-- C13: when `CoInitializeEx` fails, `main` returns exit code 1 after the one line of
diagnostic on the error stream, and nothing else runs: its effects are the
initialisation call and that line, none of them a scan call or an effect on `stdout`,
and the globals keep their initial values, whatever the audio subsystem holds. -/
theorem main_initialisation_failure (hr : HRESULT) (first : AudioSubsystem)
    (later : List AudioSubsystem) (hFail : FAILED hr = true) :
    (main hr first later).1 = some 1 ∧
    (main hr first later).2.1 = initialReporterState ∧
    (main hr first later).2.2 =
      [Effect.CoInitializeEx, Effect.fprintfStderr (diagnosticLine hr)] ∧
    (∀ e ∈ (main hr first later).2.2, isScanOrStdout e = false) := by
  unfold main
  simp only [hFail, if_true, List.mem_cons, List.mem_singleton, List.not_mem_nil, or_false,
    true_and]
  rintro e (he | he) <;> subst he <;> rfl

/-- Witness for C13: `CoInitializeEx` answers `E_FAIL` while a microphone is in use. -/
theorem main_initialisation_failure_witness :
    (main E_FAIL (systemScanning true) [systemScanning false]).1 = some 1 ∧
    (main E_FAIL (systemScanning true) [systemScanning false]).2.2 =
      [Effect.CoInitializeEx,
       Effect.fprintfStderr "COM initialization failed: 0x80004005\n"] :=
  ⟨(main_initialisation_failure E_FAIL (systemScanning true) [systemScanning false]
      (by decide)).1,
   (main_initialisation_failure E_FAIL (systemScanning true) [systemScanning false]
      (by decide)).2.2.1.trans (by decide)⟩

/-- C16: after a successful initialisation, `main` switches `stdout` to unbuffered and
performs the first `checkAndReport` with no sleep before it; every further
`checkAndReport` comes right after one `Sleep(2000)`: for any number of further ticks
the effects are the first tick, then sleep 2000 and tick for each further one, with as
many sleeps as further ticks and no sleep of another length; the loop is still running
after any number of ticks (no exit code, no `CoUninitialize`). -/
theorem main_tick_schedule (hr : HRESULT) (first : AudioSubsystem)
    (later : List AudioSubsystem) (hOk : FAILED hr = false) :
    (main hr first later).2.2 =
      [Effect.CoInitializeEx, Effect.setvbuf]
        ++ (checkAndReport first initialReporterState).2
        ++ sleepThenTick (checkAndReport first initialReporterState).1 later ∧
    (main hr first later).2.2.count (Effect.Sleep 2000) = later.length ∧
    (∀ ms, Effect.Sleep ms ∈ (main hr first later).2.2 → ms = 2000) ∧
    (main hr first later).1 = none ∧
    Effect.CoUninitialize ∉ (main hr first later).2.2 ∧
    (main hr first later).2.1 =
      (checkAndReportEach initialReporterState (first :: later)).1 := by
  have hmain : main hr first later =
      (none, (checkAndReportEach initialReporterState (first :: later)).1,
       [Effect.CoInitializeEx, Effect.setvbuf]
         ++ (checkAndReport first initialReporterState).2
         ++ sleepThenTick (checkAndReport first initialReporterState).1 later) := by
    unfold main
    simp only [hOk, Bool.false_eq_true, if_false, whileLoop_eq, checkAndReportEach]
  have hmem : ∀ e, e ∈ (main hr first later).2.2 →
      e = Effect.CoInitializeEx ∨ e = Effect.setvbuf ∨ e = Effect.Sleep 2000 ∨
        isScanOrStdout e = true := by
    intro e he
    rw [hmain] at he
    simp only [List.mem_append, List.mem_cons, List.mem_singleton, List.not_mem_nil,
      or_false] at he
    rcases he with ((he | he) | he) | he
    · exact Or.inl he
    · exact Or.inr (Or.inl he)
    · exact Or.inr (Or.inr (Or.inr (checkAndReport_effects _ _ e he)))
    · exact Or.inr (Or.inr (sleepThenTick_effects _ _ e he))
  refine ⟨by rw [hmain], ?_, fun ms hms => ?_, by rw [hmain], fun hc => ?_, by rw [hmain]⟩
  · rw [hmain]
    simp only [List.count_append, count_Sleep_checkAndReport, count_Sleep_sleepThenTick]
    simp
  · rcases hmem _ hms with h | h | h | h
    · exact absurd h (by simp)
    · exact absurd h (by simp)
    · exact Effect.Sleep.inj h
    · simp [isScanOrStdout] at h
  · rcases hmem _ hc with h | h | h | h
    · exact absurd h (by simp)
    · exact absurd h (by simp)
    · exact absurd h (by simp)
    · simp [isScanOrStdout] at h

/-- Witness for C16: the initialisation succeeds, the first scan is false and the two
scans of the loop are true; the effects on `stdout` and the sleeps are, in order, the
report of false, a sleep, the report of true, a sleep. -/
theorem main_tick_schedule_witness :
    (main S_OK (systemScanning false) [systemScanning true, systemScanning true]).2.2.count
      (Effect.Sleep 2000) = 2 ∧
    (main S_OK (systemScanning false) [systemScanning true, systemScanning true]).1 = none ∧
    (main S_OK (systemScanning false) [systemScanning true, systemScanning true]).2.2.filter
        (fun e => isStdout e || decide (e = Effect.Sleep 2000)) =
      [Effect.printf (reportLine false), Effect.fflush, Effect.Sleep 2000,
       Effect.printf (reportLine true), Effect.fflush, Effect.Sleep 2000] :=
  ⟨(main_tick_schedule S_OK (systemScanning false)
      [systemScanning true, systemScanning true] (by decide)).2.1,
   (main_tick_schedule S_OK (systemScanning false)
      [systemScanning true, systemScanning true] (by decide)).2.2.2.1,
   by decide⟩

/-! ## Enumeration order -/

theorem any_range_perm {α : Type} (g : α → Bool) (f : Nat → α) (n : Nat)
    (σ : Equiv.Perm (Fin n)) :
    (List.range n).any (fun i => g (if h : i < n then f (σ ⟨i, h⟩) else f i)) =
      (List.range n).any (fun i => g (f i)) := by
  rw [Bool.eq_iff_iff]
  simp only [List.any_eq_true, List.mem_range]
  constructor
  · rintro ⟨i, hi, hg⟩
    rw [dif_pos hi] at hg
    exact ⟨(σ ⟨i, hi⟩).1, (σ ⟨i, hi⟩).2, hg⟩
  · rintro ⟨k, hk, hg⟩
    refine ⟨(σ.symm ⟨k, hk⟩).1, (σ.symm ⟨k, hk⟩).2, ?_⟩
    rw [dif_pos (σ.symm ⟨k, hk⟩).2]
    simpa using hg

/-- C18: the result of `checkMicrophoneActive` does not depend on the enumeration
order: permuting the devices of the collection, or the sessions of any one device,
by any permutation of the indices below the reported count yields the same boolean. -/
theorem checkMicrophoneActive_order_independent (sys : AudioSubsystem) :
    (∀ σ : Equiv.Perm (Fin sys.collection.GetCount),
      (checkMicrophoneActive (permuteDevices sys σ)).1 = (checkMicrophoneActive sys).1) ∧
    (∀ (i : Nat) (σ : Equiv.Perm (Fin (sys.collection.Item i).2.sessionEnum.GetCount.toNat)),
      (checkMicrophoneActive (permuteSessions sys i σ)).1 = (checkMicrophoneActive sys).1) := by
  constructor
  · intro σ
    unfold permuteDevices
    rw [checkMicrophoneActive_withCollection, checkMicrophoneActive_fst]
    congr 2
    unfold observedState
    exact any_range_perm deviceOr sys.collection.Item _ σ
  · intro i σ
    unfold permuteSessions
    rw [checkMicrophoneActive_withCollection, checkMicrophoneActive_fst]
    congr 2
    unfold observedState
    congr 1
    funext k
    by_cases hk : k = i
    · simp only [hk, if_true]
      unfold deviceOr
      have hr : ∀ e, deviceReachable (withSessionEnum (sys.collection.Item i) e) =
          deviceReachable (sys.collection.Item i) := fun _ => rfl
      rw [hr]
      congr 1
      exact any_range_perm sessionActive (sys.collection.Item i).2.sessionEnum.GetSession _ σ
    · simp only [hk, if_false]

/-- Witness for C18: the two devices of `activeThenQuiet` are swapped; the result is the
same, and the scan that meets the active device first makes fewer calls. -/
theorem checkMicrophoneActive_order_independent_witness :
    (checkMicrophoneActive
        (permuteDevices activeThenQuiet (Equiv.swap ⟨0, by decide⟩ ⟨1, by decide⟩))).1 =
      (checkMicrophoneActive activeThenQuiet).1 ∧
    (checkMicrophoneActive activeThenQuiet).1 = true ∧
    (checkMicrophoneActive activeThenQuiet).2.length = 15 ∧
    (checkMicrophoneActive
        (permuteDevices activeThenQuiet (Equiv.swap ⟨0, by decide⟩ ⟨1, by decide⟩))).2.length
      = 25 :=
  ⟨(checkMicrophoneActive_order_independent activeThenQuiet).1 _, by decide, by decide,
   by decide⟩

/-! ## Every call is made once -/

theorem sessionBody_nodup (i : Nat) (e : IAudioSessionEnumerator) (j : Nat) (a : Bool) :
    (sessionBody i e j a).2.Nodup := by
  unfold sessionBody
  cases h : SUCCEEDED (e.GetSession j).1 <;> simp [h]

theorem sessionLoop_nodup (i : Nat) (e : IAudioSessionEnumerator) (n : Nat) :
    ∀ (j : Nat) (a : Bool), (sessionLoop i e n j a).2.Nodup := by
  induction n with
  | zero => intro j a; simp [sessionLoop]
  | succ n ih =>
    intro j a
    simp only [sessionLoop]
    cases hb : (sessionBody i e j a).1
    · simp only [Bool.false_eq_true, if_false]
      rw [List.nodup_append]
      refine ⟨sessionBody_nodup i e j a, ih _ _, fun c hc hc' => ?_⟩
      have h1 := (sessionBody_calls i e j a c hc).2
      obtain ⟨_, k, hk, hjk, _, _⟩ := sessionLoop_calls i e n (j + 1) false c hc'
      rw [h1] at hk
      have := Option.some.inj hk
      omega
    · simp only [if_true]
      exact sessionBody_nodup i e j a

theorem sessionLoop_sessionIndex (i : Nat) (e : IAudioSessionEnumerator) (n j : Nat)
    (a : Bool) (c : Call) (hc : c ∈ (sessionLoop i e n j a).2) : c.sessionIndex ≠ none := by
  obtain ⟨_, k, hk, _⟩ := sessionLoop_calls i e n j a c hc
  rw [hk]
  simp

theorem deviceBody_nodup (coll : IMMDeviceCollection) (i : Nat) (a : Bool) :
    (deviceBody coll i a).2.Nodup := by
  unfold deviceBody
  cases h1 : FAILED (coll.Item i).1
  · cases h2 : SUCCEEDED (coll.Item i).2.Activate.1
    · simp [h1, h2]
    · cases h3 : SUCCEEDED (coll.Item i).2.Activate.2.GetSessionEnumerator.1
      · simp [h1, h2, h3]
      · simp only [h1, h2, h3, Bool.false_eq_true, if_false, if_true]
        rw [List.nodup_append, List.nodup_append]
        refine ⟨⟨by simp, sessionLoop_nodup _ _ _ _ _, fun c hc hc' => ?_⟩, by simp,
          fun c hc hc' => ?_⟩
        · have := sessionLoop_sessionIndex _ _ _ _ _ c hc'
          simp only [List.mem_cons, List.mem_singleton, List.not_mem_nil, or_false] at hc
          rcases hc with hc | hc | hc | hc <;> subst hc <;> exact this rfl
        · simp only [List.mem_cons, List.mem_singleton, List.not_mem_nil, or_false] at hc'
          simp only [List.mem_append, List.mem_cons, List.mem_singleton, List.not_mem_nil,
            or_false] at hc
          rcases hc with (hc | hc | hc | hc) | hc
          · subst hc; simp at hc'
          · subst hc; simp at hc'
          · subst hc; simp at hc'
          · subst hc; simp at hc'
          · have := sessionLoop_sessionIndex _ _ _ _ _ c hc
            rcases hc' with hc' | hc' | hc' <;> subst hc' <;> exact this rfl
  · simp [h1]

theorem deviceLoop_deviceIndex (coll : IMMDeviceCollection) (n i : Nat) (a : Bool)
    (c : Call) (hc : c ∈ (deviceLoop coll n i a).2) :
    ∃ k, c.deviceIndex = some k ∧ i ≤ k ∧ k < i + n := by
  obtain ⟨k, hk, hik, hkn, _⟩ := deviceLoop_calls coll n i a c hc
  exact ⟨k, (deviceBody_calls coll k false c hk).1, hik, hkn⟩

theorem deviceLoop_nodup (coll : IMMDeviceCollection) (n : Nat) :
    ∀ (i : Nat) (a : Bool), (deviceLoop coll n i a).2.Nodup := by
  induction n with
  | zero => intro i a; simp [deviceLoop]
  | succ n ih =>
    intro i a
    cases a
    · simp only [deviceLoop, Bool.false_eq_true, if_false]
      rw [List.nodup_append]
      refine ⟨deviceBody_nodup coll i false, ih _ _, fun c hc hc' => ?_⟩
      have h1 := (deviceBody_calls coll i false c hc).1
      obtain ⟨k, hk, hik, _⟩ := deviceLoop_deviceIndex coll n (i + 1) _ c hc'
      rw [h1] at hk
      have := Option.some.inj hk
      omega
    · simp [deviceLoop]

theorem checkMicrophoneActive_nodup (sys : AudioSubsystem) :
    (checkMicrophoneActive sys).2.Nodup := by
  unfold checkMicrophoneActive
  cases h1 : FAILED sys.CoCreateInstance.1
  · cases h2 : FAILED sys.CoCreateInstance.2.EnumAudioEndpoints.1
    · simp only [h1, h2, Bool.false_eq_true, if_false]
      rw [List.nodup_append, List.nodup_append]
      refine ⟨⟨by simp, deviceLoop_nodup _ _ _ _, fun c hc hc' => ?_⟩, by simp,
        fun c hc hc' => ?_⟩
      · obtain ⟨k, hk, _⟩ := deviceLoop_deviceIndex _ _ _ _ c hc'
        simp only [List.mem_cons, List.mem_singleton, List.not_mem_nil, or_false] at hc
        rcases hc with hc | hc | hc <;> subst hc <;> simp [Call.deviceIndex] at hk
      · simp only [List.mem_cons, List.mem_singleton, List.not_mem_nil, or_false] at hc'
        simp only [List.mem_append, List.mem_cons, List.mem_singleton, List.not_mem_nil,
          or_false] at hc
        rcases hc with (hc | hc | hc) | hc
        · subst hc; simp at hc'
        · subst hc; simp at hc'
        · subst hc; simp at hc'
        · obtain ⟨k, hk, _⟩ := deviceLoop_deviceIndex _ _ _ _ c hc
          rcases hc' with hc' | hc' <;> subst hc' <;> simp [Call.deviceIndex] at hk
    · simp [h1, h2]
  · simp [h1]

/-! ## Termination and index bounds -/

theorem checkMicrophoneActive_index_bounds (sys : AudioSubsystem) (c : Call)
    (hc : c ∈ (checkMicrophoneActive sys).2) (i : Nat) (hi : c.deviceIndex = some i) :
    i < sys.collection.GetCount ∧
    ∀ j, c.sessionIndex = some j → (j : Int) < (sys.collection.Item i).2.sessionEnum.GetCount := by
  rcases checkMicrophoneActive_calls sys c hc with h | h
  · rw [h.1] at hi
    exact absurd hi (by simp)
  · obtain ⟨k, hk, _, hkn, _⟩ := deviceLoop_calls _ _ 0 false c h
    have hbody := deviceBody_calls _ k false c hk
    rw [hbody.1] at hi
    have hki : k = i := Option.some.inj hi
    subst hki
    exact ⟨by omega, fun j hj => (hbody.2 j hj).1⟩

theorem length_le_of_nodup_of_subset {α : Type} (l₁ l₂ : List α) (hd : l₁.Nodup)
    (hs : l₁ ⊆ l₂) : l₁.length ≤ l₂.length :=
  (List.subperm_of_subset hd hs).length_le

/-- C19: `checkMicrophoneActive` is a total function (both loops recurse on the reported
count, which only decreases), and for every snapshot every index it passes to `Item` is
below the reported device count, every index it passes to `GetSession` on a device is
below that device's reported session count, no call is made twice, it makes at most
`count` calls of `Item` and at most `sessionCount` calls of `GetSession` per device; a
device count of 0 causes no retrieval and the result false, and a device whose session
count is zero or negative has no session retrieved and contributes no activity. -/
theorem checkMicrophoneActive_terminates_in_bounds (sys : AudioSubsystem) :
    (∃ result calls, checkMicrophoneActive sys = (result, calls)) ∧
    (∀ i, Call.Item i ∈ (checkMicrophoneActive sys).2 → i < sys.collection.GetCount) ∧
    (∀ i j, Call.GetSession i j ∈ (checkMicrophoneActive sys).2 →
      i < sys.collection.GetCount ∧
      (0 : Int) ≤ (j : Int) ∧ (j : Int) < (sys.collection.Item i).2.sessionEnum.GetCount) ∧
    (checkMicrophoneActive sys).2.Nodup ∧
    ((checkMicrophoneActive sys).2.filter Call.isItem).length ≤ sys.collection.GetCount ∧
    (∀ i, (((checkMicrophoneActive sys).2.filter (Call.isGetSessionOf i)).length : Int)
      ≤ max 0 (sys.collection.Item i).2.sessionEnum.GetCount) ∧
    (sys.collection.GetCount = 0 →
      (checkMicrophoneActive sys).1 = false ∧
      ∀ c ∈ (checkMicrophoneActive sys).2, c.deviceIndex = none) ∧
    (∀ i, (sys.collection.Item i).2.sessionEnum.GetCount ≤ 0 →
      deviceOr (sys.collection.Item i) = false ∧
      ∀ j, Call.GetSession i j ∉ (checkMicrophoneActive sys).2 ∧
        Call.GetState i j ∉ (checkMicrophoneActive sys).2) := by
  have hItem : ∀ i, Call.Item i ∈ (checkMicrophoneActive sys).2 → i < sys.collection.GetCount :=
    fun i h => (checkMicrophoneActive_index_bounds sys _ h i rfl).1
  have hSession : ∀ i j, Call.GetSession i j ∈ (checkMicrophoneActive sys).2 →
      i < sys.collection.GetCount ∧
      (j : Int) < (sys.collection.Item i).2.sessionEnum.GetCount := fun i j h =>
    ⟨(checkMicrophoneActive_index_bounds sys _ h i rfl).1,
     (checkMicrophoneActive_index_bounds sys _ h i rfl).2 j rfl⟩
  have hnodup := checkMicrophoneActive_nodup sys
  refine ⟨⟨_, _, rfl⟩, hItem, fun i j h => ⟨(hSession i j h).1, Int.ofNat_nonneg j,
    (hSession i j h).2⟩, hnodup, ?_, fun i => ?_, fun h0 => ⟨?_, fun c hc => ?_⟩,
    fun i hi => ⟨?_, fun j => ⟨fun h => ?_, fun h => ?_⟩⟩⟩
  · have hsub : (checkMicrophoneActive sys).2.filter Call.isItem ⊆
        (List.range sys.collection.GetCount).map Call.Item := by
      intro c hc
      rw [List.mem_filter] at hc
      cases c <;> simp [Call.isItem] at hc
      rename_i k
      exact List.mem_map.mpr ⟨k, List.mem_range.mpr (hItem k hc), rfl⟩
    have := length_le_of_nodup_of_subset _ _ (hnodup.filter _) hsub
    simpa using this
  · have hsub : (checkMicrophoneActive sys).2.filter (Call.isGetSessionOf i) ⊆
        (List.range (sys.collection.Item i).2.sessionEnum.GetCount.toNat).map
          (Call.GetSession i) := by
      intro c hc
      rw [List.mem_filter] at hc
      cases c <;> simp [Call.isGetSessionOf] at hc
      rename_i k j
      obtain ⟨hmem, hk⟩ := hc
      subst hk
      exact List.mem_map.mpr ⟨j, List.mem_range.mpr (Int.lt_toNat.mpr (hSession k j hmem).2),
        rfl⟩
    have := length_le_of_nodup_of_subset _ _ (hnodup.filter _) hsub
    simp only [List.length_map, List.length_range] at this
    omega
  · rw [checkMicrophoneActive_fst]
    unfold observedState
    rw [h0]
    simp
  · cases hd : c.deviceIndex with
    | none => rfl
    | some k =>
      have := (checkMicrophoneActive_index_bounds sys c hc k hd).1
      omega
  · unfold deviceOr
    have : (sys.collection.Item i).2.sessionEnum.GetCount.toNat = 0 := by omega
    rw [this]
    simp
  · have := (hSession i j h).2
    omega
  · have := (checkMicrophoneActive_index_bounds sys _ h i rfl).2 j rfl
    omega

/-- Witness for C19: a device reporting a session count of -1 in front of a device with
one active session; no session of the first is retrieved and the scan returns true. -/
theorem checkMicrophoneActive_terminates_in_bounds_witness :
    (negativeCountThenActive.collection.Item 0).2.sessionEnum.GetCount ≤ 0 ∧
    Call.GetSession 0 0 ∉ (checkMicrophoneActive negativeCountThenActive).2 ∧
    (checkMicrophoneActive negativeCountThenActive).1 = true ∧
    (checkMicrophoneActive negativeCountThenActive).2 =
      [Call.CoCreateInstance, Call.EnumAudioEndpoints, Call.CollectionGetCount,
       Call.Item 0, Call.Activate 0, Call.GetSessionEnumerator 0, Call.SessionGetCount 0,
       Call.Release (Handle.pSessionEnum 0), Call.Release (Handle.pSessionManager 0),
       Call.Release (Handle.pDevice 0),
       Call.Item 1, Call.Activate 1, Call.GetSessionEnumerator 1, Call.SessionGetCount 1,
       Call.GetSession 1 0, Call.GetState 1 0, Call.Release (Handle.pSessionControl 1 0),
       Call.Release (Handle.pSessionEnum 1), Call.Release (Handle.pSessionManager 1),
       Call.Release (Handle.pDevice 1),
       Call.Release Handle.pCollection, Call.Release Handle.pEnumerator] :=
  ⟨by decide,
   ((checkMicrophoneActive_terminates_in_bounds negativeCountThenActive).2.2.2.2.2.2.2 0
      (by decide)).2 0 |>.1,
   by decide, by decide⟩

/-! ## Handles are released once, and used only while held -/

theorem handleStep_receiver (sys : AudioSubsystem) (live live₁ : List Handle) (c : Call)
    (hs : handleStep sys live c = some live₁) (h : Handle) (hr : c.receiver = some h) :
    h ∈ live := by
  unfold handleStep at hs
  rw [hr] at hs
  by_contra hmem
  simp [hmem] at hs

theorem handleStep_cases (sys : AudioSubsystem) (live live₁ : List Handle) (c : Call)
    (hs : handleStep sys live c = some live₁) :
    (∃ h, c = Call.Release h ∧ h ∈ live ∧ live₁ = live.erase h) ∨
    (∃ h, c = h.acquiredBy ∧ acquisitionSucceeded sys h = true ∧ h ∉ live ∧
      live₁ = h :: live) ∨
    (live₁ = live ∧ (∀ h, c ≠ Call.Release h) ∧
      ∀ h, c = h.acquiredBy → acquisitionSucceeded sys h = false) := by
  cases c with
  | Release h =>
    refine Or.inl ⟨h, rfl, handleStep_receiver sys live live₁ _ hs h rfl, ?_⟩
    have hmem := handleStep_receiver sys live live₁ _ hs h rfl
    simp only [handleStep, Call.receiver, hmem, if_true] at hs
    exact (Option.some.inj hs).symm
  | CoCreateInstance =>
    simp only [handleStep, Call.receiver, Call.acquires] at hs
    by_cases hok : acquisitionSucceeded sys Handle.pEnumerator = true
    · by_cases hl : Handle.pEnumerator ∈ live
      · simp [hok, hl] at hs
      · simp only [hok, hl, if_true, if_false] at hs
        exact Or.inr (Or.inl ⟨Handle.pEnumerator, rfl, hok, hl, (Option.some.inj hs).symm⟩)
    · simp only [hok, Bool.false_eq_true, if_false] at hs
      refine Or.inr (Or.inr ⟨(Option.some.inj hs).symm, fun h => by simp, fun h hh => ?_⟩)
      cases h <;> simp [Handle.acquiredBy] at hh
      simpa using hok
  | EnumAudioEndpoints =>
    have hmem := handleStep_receiver sys live live₁ _ hs _ rfl
    simp only [handleStep, Call.receiver, Call.acquires, hmem, if_true] at hs
    by_cases hok : acquisitionSucceeded sys Handle.pCollection = true
    · by_cases hl : Handle.pCollection ∈ live
      · simp [hok, hl] at hs
      · simp only [hok, hl, if_true, if_false] at hs
        exact Or.inr (Or.inl ⟨Handle.pCollection, rfl, hok, hl, (Option.some.inj hs).symm⟩)
    · simp only [hok, Bool.false_eq_true, if_false] at hs
      refine Or.inr (Or.inr ⟨(Option.some.inj hs).symm, fun h => by simp, fun h hh => ?_⟩)
      cases h <;> simp [Handle.acquiredBy] at hh
      simpa using hok
  | CollectionGetCount =>
    have hmem := handleStep_receiver sys live live₁ _ hs _ rfl
    simp only [handleStep, Call.receiver, Call.acquires, hmem, if_true] at hs
    refine Or.inr (Or.inr ⟨(Option.some.inj hs).symm, fun h => by simp, fun h hh => ?_⟩)
    cases h <;> simp [Handle.acquiredBy] at hh
  | Item i =>
    have hmem := handleStep_receiver sys live live₁ _ hs _ rfl
    simp only [handleStep, Call.receiver, Call.acquires, hmem, if_true] at hs
    by_cases hok : acquisitionSucceeded sys (Handle.pDevice i) = true
    · by_cases hl : Handle.pDevice i ∈ live
      · simp [hok, hl] at hs
      · simp only [hok, hl, if_true, if_false] at hs
        exact Or.inr (Or.inl ⟨Handle.pDevice i, rfl, hok, hl, (Option.some.inj hs).symm⟩)
    · simp only [hok, Bool.false_eq_true, if_false] at hs
      refine Or.inr (Or.inr ⟨(Option.some.inj hs).symm, fun h => by simp, fun h hh => ?_⟩)
      cases h <;> simp [Handle.acquiredBy] at hh
      subst hh
      simpa using hok
  | Activate i =>
    have hmem := handleStep_receiver sys live live₁ _ hs _ rfl
    simp only [handleStep, Call.receiver, Call.acquires, hmem, if_true] at hs
    by_cases hok : acquisitionSucceeded sys (Handle.pSessionManager i) = true
    · by_cases hl : Handle.pSessionManager i ∈ live
      · simp [hok, hl] at hs
      · simp only [hok, hl, if_true, if_false] at hs
        exact Or.inr (Or.inl ⟨Handle.pSessionManager i, rfl, hok, hl,
          (Option.some.inj hs).symm⟩)
    · simp only [hok, Bool.false_eq_true, if_false] at hs
      refine Or.inr (Or.inr ⟨(Option.some.inj hs).symm, fun h => by simp, fun h hh => ?_⟩)
      cases h <;> simp [Handle.acquiredBy] at hh
      subst hh
      simpa using hok
  | GetSessionEnumerator i =>
    have hmem := handleStep_receiver sys live live₁ _ hs _ rfl
    simp only [handleStep, Call.receiver, Call.acquires, hmem, if_true] at hs
    by_cases hok : acquisitionSucceeded sys (Handle.pSessionEnum i) = true
    · by_cases hl : Handle.pSessionEnum i ∈ live
      · simp [hok, hl] at hs
      · simp only [hok, hl, if_true, if_false] at hs
        exact Or.inr (Or.inl ⟨Handle.pSessionEnum i, rfl, hok, hl,
          (Option.some.inj hs).symm⟩)
    · simp only [hok, Bool.false_eq_true, if_false] at hs
      refine Or.inr (Or.inr ⟨(Option.some.inj hs).symm, fun h => by simp, fun h hh => ?_⟩)
      cases h <;> simp [Handle.acquiredBy] at hh
      subst hh
      simpa using hok
  | SessionGetCount i =>
    have hmem := handleStep_receiver sys live live₁ _ hs _ rfl
    simp only [handleStep, Call.receiver, Call.acquires, hmem, if_true] at hs
    refine Or.inr (Or.inr ⟨(Option.some.inj hs).symm, fun h => by simp, fun h hh => ?_⟩)
    cases h <;> simp [Handle.acquiredBy] at hh
  | GetSession i j =>
    have hmem := handleStep_receiver sys live live₁ _ hs _ rfl
    simp only [handleStep, Call.receiver, Call.acquires, hmem, if_true] at hs
    by_cases hok : acquisitionSucceeded sys (Handle.pSessionControl i j) = true
    · by_cases hl : Handle.pSessionControl i j ∈ live
      · simp [hok, hl] at hs
      · simp only [hok, hl, if_true, if_false] at hs
        exact Or.inr (Or.inl ⟨Handle.pSessionControl i j, rfl, hok, hl,
          (Option.some.inj hs).symm⟩)
    · simp only [hok, Bool.false_eq_true, if_false] at hs
      refine Or.inr (Or.inr ⟨(Option.some.inj hs).symm, fun h => by simp, fun h hh => ?_⟩)
      cases h <;> simp [Handle.acquiredBy] at hh
      obtain ⟨h1, h2⟩ := hh
      subst h1 h2
      simpa using hok
  | GetState i j =>
    have hmem := handleStep_receiver sys live live₁ _ hs _ rfl
    simp only [handleStep, Call.receiver, Call.acquires, hmem, if_true] at hs
    refine Or.inr (Or.inr ⟨(Option.some.inj hs).symm, fun h => by simp, fun h hh => ?_⟩)
    cases h <;> simp [Handle.acquiredBy] at hh

theorem acquiredBy_ne_Release (h h' : Handle) : h.acquiredBy ≠ Call.Release h' := by
  cases h <;> simp [Handle.acquiredBy]

theorem acquiredBy_injective (h h' : Handle) (he : h.acquiredBy = h'.acquiredBy) : h = h' := by
  cases h <;> cases h' <;> simp [Handle.acquiredBy] at he ⊢ <;> exact he

theorem handleStep_mem (sys : AudioSubsystem) (live live₁ : List Handle) (c : Call)
    (hs : handleStep sys live c = some live₁) (h : Handle) (hmem : h ∈ live₁) :
    h ∈ live ∨ (c = h.acquiredBy ∧ acquisitionSucceeded sys h = true) := by
  rcases handleStep_cases sys live live₁ c hs with ⟨h', _, _, hl⟩ | ⟨h', hc, hok, _, hl⟩ | ⟨hl, _⟩
  · rw [hl] at hmem
    exact Or.inl (List.mem_of_mem_erase hmem)
  · rw [hl, List.mem_cons] at hmem
    rcases hmem with hmem | hmem
    · subst hmem
      exact Or.inr ⟨hc, hok⟩
    · exact Or.inl hmem
  · rw [hl] at hmem
    exact Or.inl hmem

theorem handleStep_keeps (sys : AudioSubsystem) (live live₁ : List Handle) (c : Call)
    (hs : handleStep sys live c = some live₁) (h : Handle) (hmem : h ∈ live) :
    h ∈ live₁ ∨ c = Call.Release h := by
  rcases handleStep_cases sys live live₁ c hs with ⟨h', hc, _, hl⟩ | ⟨h', _, _, _, hl⟩ | ⟨hl, _⟩
  · by_cases hh : h = h'
    · subst hh
      exact Or.inr hc
    · rw [hl]
      exact Or.inl ((List.mem_erase_of_ne hh).mpr hmem)
  · rw [hl]
    exact Or.inl (List.mem_cons_of_mem _ hmem)
  · rw [hl]
    exact Or.inl hmem

theorem handleStep_gains (sys : AudioSubsystem) (live live₁ : List Handle) (h : Handle)
    (hs : handleStep sys live h.acquiredBy = some live₁)
    (hok : acquisitionSucceeded sys h = true) : h ∈ live₁ := by
  rcases handleStep_cases sys live live₁ _ hs with ⟨h', hc, _, _⟩ | ⟨h', hc, _, _, hl⟩ |
    ⟨_, _, hfail⟩
  · exact absurd hc (acquiredBy_ne_Release h h')
  · rw [hl, acquiredBy_injective h h' hc]
    exact List.mem_cons_self _ _
  · rw [hfail h rfl] at hok
    exact absurd hok (by decide)

theorem handleStep_nodup (sys : AudioSubsystem) (live live₁ : List Handle) (c : Call)
    (hs : handleStep sys live c = some live₁) (hn : live.Nodup) : live₁.Nodup := by
  rcases handleStep_cases sys live live₁ c hs with ⟨h', _, _, hl⟩ | ⟨h', _, _, hnot, hl⟩ | ⟨hl, _⟩
  · rw [hl]
    exact hn.erase h'
  · rw [hl]
    exact List.nodup_cons.mpr ⟨hnot, hn⟩
  · rw [hl]
    exact hn

theorem handleRun_cons (sys : AudioSubsystem) (live live' : List Handle) (c : Call)
    (tr : List Call) (hr : handleRun sys live (c :: tr) = some live') :
    ∃ live₁, handleStep sys live c = some live₁ ∧ handleRun sys live₁ tr = some live' := by
  simp only [handleRun] at hr
  cases hs : handleStep sys live c with
  | none => rw [hs] at hr; exact absurd hr (by simp)
  | some live₁ => rw [hs] at hr; exact ⟨live₁, rfl, hr⟩

theorem handleRun_append (sys : AudioSubsystem) (tr₁ tr₂ : List Call) :
    ∀ live : List Handle, handleRun sys live (tr₁ ++ tr₂) =
      (handleRun sys live tr₁).bind (fun live₁ => handleRun sys live₁ tr₂) := by
  induction tr₁ with
  | nil => intro live; rfl
  | cons c tr ih =>
    intro live
    simp only [List.cons_append, handleRun]
    cases handleStep sys live c with
    | none => rfl
    | some live₁ => exact ih live₁

theorem handleRun_nodup (sys : AudioSubsystem) (tr : List Call) :
    ∀ live live' : List Handle, handleRun sys live tr = some live' → live.Nodup →
      live'.Nodup := by
  induction tr with
  | nil => intro live live' hr hn; simp only [handleRun] at hr; exact Option.some.inj hr ▸ hn
  | cons c tr ih =>
    intro live live' hr hn
    obtain ⟨live₁, hs, hr'⟩ := handleRun_cons sys live live' c tr hr
    exact ih live₁ live' hr' (handleStep_nodup sys live live₁ c hs hn)

theorem handleRun_mem (sys : AudioSubsystem) (tr : List Call) :
    ∀ live live' : List Handle, handleRun sys live tr = some live' →
      ∀ h, h ∈ live' →
        h ∈ live ∨ (h.acquiredBy ∈ tr ∧ acquisitionSucceeded sys h = true) := by
  induction tr with
  | nil =>
    intro live live' hr h hmem
    simp only [handleRun] at hr
    exact Or.inl (Option.some.inj hr ▸ hmem)
  | cons c tr ih =>
    intro live live' hr h hmem
    obtain ⟨live₁, hs, hr'⟩ := handleRun_cons sys live live' c tr hr
    rcases ih live₁ live' hr' h hmem with h1 | ⟨h1, hok⟩
    · rcases handleStep_mem sys live live₁ c hs h h1 with h2 | ⟨h2, hok⟩
      · exact Or.inl h2
      · exact Or.inr ⟨h2 ▸ List.mem_cons_self _ _, hok⟩
    · exact Or.inr ⟨List.mem_cons_of_mem _ h1, hok⟩

theorem handleRun_receiver (sys : AudioSubsystem) (tr : List Call) :
    ∀ live live' : List Handle, handleRun sys live tr = some live' →
      ∀ c ∈ tr, ∀ h, c.receiver = some h →
        h ∈ live ∨ (h.acquiredBy ∈ tr ∧ acquisitionSucceeded sys h = true) := by
  induction tr with
  | nil => intro live live' _ c hc; exact absurd hc (List.not_mem_nil _)
  | cons c' tr ih =>
    intro live live' hr c hc h hrec
    obtain ⟨live₁, hs, hr'⟩ := handleRun_cons sys live live' c' tr hr
    rcases List.mem_cons.mp hc with hc | hc
    · subst hc
      exact Or.inl (handleStep_receiver sys live live₁ c hs h hrec)
    · rcases ih live₁ live' hr' c hc h hrec with h1 | ⟨h1, hok⟩
      · rcases handleStep_mem sys live live₁ c' hs h h1 with h2 | ⟨h2, hok⟩
        · exact Or.inl h2
        · exact Or.inr ⟨h2 ▸ List.mem_cons_self _ _, hok⟩
      · exact Or.inr ⟨List.mem_cons_of_mem _ h1, hok⟩

theorem handleRun_released (sys : AudioSubsystem) (tr : List Call) :
    ∀ live live' : List Handle, handleRun sys live tr = some live' →
      ∀ h, (h ∈ live ∨ (h.acquiredBy ∈ tr ∧ acquisitionSucceeded sys h = true)) →
        h ∈ live' ∨ Call.Release h ∈ tr := by
  induction tr with
  | nil =>
    intro live live' hr h hh
    simp only [handleRun] at hr
    rcases hh with hh | ⟨hh, _⟩
    · exact Or.inl (Option.some.inj hr ▸ hh)
    · exact absurd hh (List.not_mem_nil _)
  | cons c tr ih =>
    intro live live' hr h hh
    obtain ⟨live₁, hs, hr'⟩ := handleRun_cons sys live live' c tr hr
    have hlift : h ∈ live' ∨ Call.Release h ∈ tr → h ∈ live' ∨ Call.Release h ∈ c :: tr :=
      fun hx => hx.imp id (List.mem_cons_of_mem _)
    rcases hh with hh | ⟨hh, hok⟩
    · rcases handleStep_keeps sys live live₁ c hs h hh with h1 | h1
      · exact hlift (ih live₁ live' hr' h (Or.inl h1))
      · exact Or.inr (h1 ▸ List.mem_cons_self _ _)
    · rcases List.mem_cons.mp hh with hc | hc
      · rw [← hc] at hs
        exact hlift (ih live₁ live' hr' h (Or.inl (handleStep_gains sys live live₁ h hs hok)))
      · exact hlift (ih live₁ live' hr' h (Or.inr ⟨hc, hok⟩))

theorem handleRun_no_use_after_release (sys : AudioSubsystem) (pre post : List Call)
    (h : Handle) (live' : List Handle)
    (hr : handleRun sys [] (pre ++ Call.Release h :: post) = some live')
    (hn : (pre ++ Call.Release h :: post).Nodup) :
    ∀ c ∈ post, c.receiver ≠ some h := by
  intro c hc hrec
  rw [handleRun_append] at hr
  cases hpre : handleRun sys [] pre with
  | none => rw [hpre] at hr; exact absurd hr (by simp)
  | some l₁ =>
    rw [hpre] at hr
    simp only [Option.bind] at hr
    obtain ⟨l₂, hs, hpost⟩ := handleRun_cons sys l₁ live' _ post hr
    have hl₁ : l₁.Nodup := handleRun_nodup sys pre [] l₁ hpre List.nodup_nil
    have hin : h ∈ l₁ := handleStep_receiver sys l₁ l₂ _ hs h rfl
    have hl₂ : l₂ = l₁.erase h := by
      rcases handleStep_cases sys l₁ l₂ _ hs with ⟨h', hc', _, hl⟩ | ⟨h', hc', _⟩ | ⟨_, hne, _⟩
      · rw [Call.Release.inj hc']; exact hl
      · exact absurd hc'.symm (acquiredBy_ne_Release h' h)
      · exact absurd rfl (hne h)
    have hnot : h ∉ l₂ := by
      rw [hl₂]
      exact fun hm => (List.Nodup.mem_erase_iff hl₁).mp hm |>.1 rfl
    have hacqPre : h.acquiredBy ∈ pre := by
      rcases handleRun_mem sys pre [] l₁ hpre h hin with h1 | ⟨h1, _⟩
      · exact absurd h1 (List.not_mem_nil _)
      · exact h1
    have hacqPost : h.acquiredBy ∈ post := by
      rcases handleRun_receiver sys post l₂ live' hpost c hc h hrec with h1 | ⟨h1, _⟩
      · exact absurd h1 hnot
      · exact h1
    rw [List.nodup_append] at hn
    exact hn.2.2 hacqPre (List.mem_cons_of_mem _ hacqPost)

theorem sessionBody_handles (sys : AudioSubsystem) (i j : Nat) (a : Bool) :
    handleRun sys
      [Handle.pSessionEnum i, Handle.pSessionManager i, Handle.pDevice i,
       Handle.pCollection, Handle.pEnumerator]
      (sessionBody i (sys.collection.Item i).2.sessionEnum j a).2 =
    some [Handle.pSessionEnum i, Handle.pSessionManager i, Handle.pDevice i,
          Handle.pCollection, Handle.pEnumerator] := by
  unfold sessionBody
  cases h : SUCCEEDED ((sys.collection.Item i).2.sessionEnum.GetSession j).1
  · simp [h, handleRun, handleStep, Call.receiver, Call.acquires, acquisitionSucceeded]
  · simp [h, handleRun, handleStep, Call.receiver, Call.acquires, acquisitionSucceeded]

theorem sessionLoop_handles (sys : AudioSubsystem) (i n : Nat) :
    ∀ (j : Nat) (a : Bool),
      handleRun sys
        [Handle.pSessionEnum i, Handle.pSessionManager i, Handle.pDevice i,
         Handle.pCollection, Handle.pEnumerator]
        (sessionLoop i (sys.collection.Item i).2.sessionEnum n j a).2 =
      some [Handle.pSessionEnum i, Handle.pSessionManager i, Handle.pDevice i,
            Handle.pCollection, Handle.pEnumerator] := by
  induction n with
  | zero => intro j a; rfl
  | succ n ih =>
    intro j a
    simp only [sessionLoop]
    cases hb : (sessionBody i (sys.collection.Item i).2.sessionEnum j a).1
    · simp only [Bool.false_eq_true, if_false]
      rw [handleRun_append, sessionBody_handles]
      exact ih _ _
    · simp only [if_true]
      exact sessionBody_handles sys i j a

theorem deviceBody_handles (sys : AudioSubsystem) (i : Nat) (a : Bool) :
    handleRun sys [Handle.pCollection, Handle.pEnumerator]
      (deviceBody sys.collection i a).2 =
    some [Handle.pCollection, Handle.pEnumerator] := by
  unfold deviceBody
  simp only [FAILED_eq_not_SUCCEEDED]
  cases h1 : SUCCEEDED (sys.collection.Item i).1
  · simp [h1, handleRun, handleStep, Call.receiver, Call.acquires, acquisitionSucceeded]
  · cases h2 : SUCCEEDED (sys.collection.Item i).2.Activate.1
    · simp [h1, h2, handleRun, handleStep, Call.receiver, Call.acquires,
        acquisitionSucceeded]
    · cases h3 : SUCCEEDED (sys.collection.Item i).2.Activate.2.GetSessionEnumerator.1
      · simp [h1, h2, h3, handleRun, handleStep, Call.receiver, Call.acquires,
          acquisitionSucceeded]
      · simp only [h1, h2, h3, Bool.not_true, Bool.false_eq_true, if_false, if_true]
        have hpre : handleRun sys [Handle.pCollection, Handle.pEnumerator]
            [Call.Item i, Call.Activate i, Call.GetSessionEnumerator i, Call.SessionGetCount i]
            = some [Handle.pSessionEnum i, Handle.pSessionManager i, Handle.pDevice i,
                    Handle.pCollection, Handle.pEnumerator] := by
          simp [h1, h2, h3, handleRun, handleStep, Call.receiver, Call.acquires,
            acquisitionSucceeded]
        have hloop := sessionLoop_handles sys i
          (sys.collection.Item i).2.Activate.2.GetSessionEnumerator.2.GetCount.toNat 0 a
        have hpost : handleRun sys
            [Handle.pSessionEnum i, Handle.pSessionManager i, Handle.pDevice i,
             Handle.pCollection, Handle.pEnumerator]
            [Call.Release (Handle.pSessionEnum i), Call.Release (Handle.pSessionManager i),
             Call.Release (Handle.pDevice i)]
            = some [Handle.pCollection, Handle.pEnumerator] := by
          simp [handleRun, handleStep, Call.receiver, Call.acquires]
        rw [handleRun_append, handleRun_append, hpre]
        simp only [Option.bind]
        have hloop' : handleRun sys
            [Handle.pSessionEnum i, Handle.pSessionManager i, Handle.pDevice i,
             Handle.pCollection, Handle.pEnumerator]
            (sessionLoop i (sys.collection.Item i).2.Activate.2.GetSessionEnumerator.2
              (sys.collection.Item i).2.Activate.2.GetSessionEnumerator.2.GetCount.toNat 0 a).2
            = some [Handle.pSessionEnum i, Handle.pSessionManager i, Handle.pDevice i,
                    Handle.pCollection, Handle.pEnumerator] := hloop
        rw [hloop']
        exact hpost

theorem deviceLoop_handles (sys : AudioSubsystem) (n : Nat) :
    ∀ (i : Nat) (a : Bool),
      handleRun sys [Handle.pCollection, Handle.pEnumerator]
        (deviceLoop sys.collection n i a).2 =
      some [Handle.pCollection, Handle.pEnumerator] := by
  induction n with
  | zero => intro i a; rfl
  | succ n ih =>
    intro i a
    cases a
    · simp only [deviceLoop, Bool.false_eq_true, if_false]
      rw [handleRun_append, deviceBody_handles]
      exact ih _ _
    · simp [deviceLoop, handleRun]

theorem checkMicrophoneActive_handles (sys : AudioSubsystem) :
    handleRun sys [] (checkMicrophoneActive sys).2 = some [] := by
  unfold checkMicrophoneActive
  simp only [FAILED_eq_not_SUCCEEDED]
  cases h1 : SUCCEEDED sys.CoCreateInstance.1
  · simp [h1, handleRun, handleStep, Call.receiver, Call.acquires, acquisitionSucceeded]
  · cases h2 : SUCCEEDED sys.CoCreateInstance.2.EnumAudioEndpoints.1
    · simp [h1, h2, handleRun, handleStep, Call.receiver, Call.acquires,
        acquisitionSucceeded]
    · simp only [h1, h2, Bool.not_true, Bool.false_eq_true, if_false]
      have hpre : handleRun sys []
          [Call.CoCreateInstance, Call.EnumAudioEndpoints, Call.CollectionGetCount]
          = some [Handle.pCollection, Handle.pEnumerator] := by
        simp [h1, h2, handleRun, handleStep, Call.receiver, Call.acquires,
          acquisitionSucceeded]
      have hloop : handleRun sys [Handle.pCollection, Handle.pEnumerator]
          (deviceLoop sys.CoCreateInstance.2.EnumAudioEndpoints.2
            sys.CoCreateInstance.2.EnumAudioEndpoints.2.GetCount 0 false).2
          = some [Handle.pCollection, Handle.pEnumerator] :=
        deviceLoop_handles sys sys.collection.GetCount 0 false
      rw [handleRun_append, handleRun_append, hpre]
      simp only [Option.bind]
      rw [hloop]
      simp [handleRun, handleStep, Call.receiver, Call.acquires]

/-- C15: on every exit path of `checkMicrophoneActive` (the theorem holds for every
snapshot), each call is made through a handle that is held at that moment, each
release gives back a held handle and nothing is held at the return; no call is made
twice; every handle whose acquisition was attempted and succeeded is released exactly
once; a release only happens for a handle whose acquisition was attempted and
succeeded; no call is made through a handle after its release; and every call made
through a handle comes after the successful acquisition of that handle. -/
theorem checkMicrophoneActive_releases_handles (sys : AudioSubsystem) :
    handleRun sys [] (checkMicrophoneActive sys).2 = some [] ∧
    (checkMicrophoneActive sys).2.Nodup ∧
    (∀ h : Handle, h.acquiredBy ∈ (checkMicrophoneActive sys).2 →
      acquisitionSucceeded sys h = true →
      (checkMicrophoneActive sys).2.count (Call.Release h) = 1) ∧
    (∀ h : Handle, Call.Release h ∈ (checkMicrophoneActive sys).2 →
      h.acquiredBy ∈ (checkMicrophoneActive sys).2 ∧ acquisitionSucceeded sys h = true) ∧
    (∀ (h : Handle) (pre post : List Call),
      (checkMicrophoneActive sys).2 = pre ++ Call.Release h :: post →
      ∀ c ∈ post, c.receiver ≠ some h) ∧
    (∀ (h : Handle) (c : Call) (pre post : List Call),
      (checkMicrophoneActive sys).2 = pre ++ c :: post → c.receiver = some h →
      h.acquiredBy ∈ pre ∧ acquisitionSucceeded sys h = true) := by
  have hrun := checkMicrophoneActive_handles sys
  have hnodup := checkMicrophoneActive_nodup sys
  refine ⟨hrun, hnodup, fun h hacq hok => ?_, fun h hrel => ?_, fun h pre post heq => ?_,
    fun h c pre post heq hrec => ?_⟩
  · rcases handleRun_released sys _ [] [] hrun h (Or.inr ⟨hacq, hok⟩) with h1 | h1
    · exact absurd h1 (List.not_mem_nil _)
    · exact List.count_eq_one_of_mem hnodup h1
  · rcases handleRun_receiver sys _ [] [] hrun _ hrel h rfl with h1 | h1
    · exact absurd h1 (List.not_mem_nil _)
    · exact h1
  · rw [heq] at hrun hnodup
    exact handleRun_no_use_after_release sys pre post h [] hrun hnodup
  · rw [heq, handleRun_append] at hrun
    cases hpre : handleRun sys [] pre with
    | none => rw [hpre] at hrun; exact absurd hrun (by simp)
    | some l₁ =>
      rw [hpre] at hrun
      simp only [Option.bind] at hrun
      obtain ⟨l₂, hs, _⟩ := handleRun_cons sys l₁ [] c post hrun
      have hin := handleStep_receiver sys l₁ l₂ c hs h hrec
      rcases handleRun_mem sys pre [] l₁ hpre h hin with h1 | h1
      · exact absurd h1 (List.not_mem_nil _)
      · exact h1

/-- Witness for C15: in the scan of `threeDevices`, which short-circuits at the second
device, the handle of that device is released exactly once and the third device,
never retrieved, is never released; the early return of a failed endpoint enumeration
releases the enumerator and nothing else. -/
theorem checkMicrophoneActive_releases_handles_witness :
    (checkMicrophoneActive threeDevices).2.count (Call.Release (Handle.pDevice 1)) = 1 ∧
    (checkMicrophoneActive threeDevices).2.count (Call.Release (Handle.pSessionControl 1 0))
      = 1 ∧
    Call.Release (Handle.pDevice 2) ∉ (checkMicrophoneActive threeDevices).2 ∧
    handleRun (withoutEndpoints threeDevices) []
      (checkMicrophoneActive (withoutEndpoints threeDevices)).2 = some [] ∧
    (checkMicrophoneActive (withoutEndpoints threeDevices)).2 =
      [Call.CoCreateInstance, Call.EnumAudioEndpoints, Call.Release Handle.pEnumerator] :=
  ⟨(checkMicrophoneActive_releases_handles threeDevices).2.2.1 (Handle.pDevice 1)
      (by decide) (by decide),
   (checkMicrophoneActive_releases_handles threeDevices).2.2.1 (Handle.pSessionControl 1 0)
      (by decide) (by decide),
   fun hrel => absurd
     ((checkMicrophoneActive_releases_handles threeDevices).2.2.2.1 (Handle.pDevice 2) hrel).1
     (by decide),
   (checkMicrophoneActive_releases_handles (withoutEndpoints threeDevices)).1,
   by decide⟩

end MicMonitor
